import Mathlib

/-!
Verification development for the two flat-file generator scripts of this
repository: the League of Legends flattener (`lol_basic_parser.py`) and the
Valorant flattener (`val_basic_parser.py`).

The pure aggregation logic of both scripts is embedded shallowly:

* Python dicts used as records become Lean structures.
* Python exceptions (`ZeroDivisionError`, `KeyError`, `IndexError`,
  explicit `raise`) become `Option`-valued functions returning `none`.
* Python non-negative integers become `Nat`; true division becomes division
  in `ℚ` (the scripts' float rounding of displayed rates is not modelled,
  no property below depends on a displayed decimal).
* Python's stable `sorted` becomes `List.insertionSort`, which is a stable
  sort and hence produces the same list for the same key function.

Network, CSV and logging code is out of scope: the embedded functions are
`game_factory`, `game_metadata_factory`, `split_team_tag_and_player_nickname`
and the loops they contain.
-/

namespace Lol

/-- One timeline event from the Riot details file.  The scan in
`game_factory` reads `type`, `teamId` (for `TURRET_PLATE_DESTROYED`),
`killerId` and `victimId` (for `CHAMPION_KILL`); unused JSON keys are not
modelled. -/
structure Event where
  type : String
  teamId : Nat
  killerId : Nat
  victimId : Nat
deriving DecidableEq

/-- One timeline frame: a timestamp in milliseconds and its events. -/
structure Frame where
  timestamp : Nat
  events : List Event
deriving DecidableEq

/-- The per-side entry of the `team_totals` dict in `game_factory`. -/
structure TeamTotals where
  kills : Nat
  deaths : Nat
  damage_to_champions : Nat
  gold_earned : Nat
  creep_score : Nat
  wards_placed : Nat
  wards_killed : Nat
  control_wards_purchased : Nat
  turret_plates : Nat
deriving DecidableEq

def TeamTotals.init : TeamTotals := ⟨0, 0, 0, 0, 0, 0, 0, 0, 0⟩

/-- The whole `team_totals` dict: its two keys are the sides 100 and 200. -/
structure Totals where
  t100 : TeamTotals
  t200 : TeamTotals
deriving DecidableEq

def Totals.init : Totals := ⟨TeamTotals.init, TeamTotals.init⟩

/-- `team_totals[team_id]`; `none` models the `KeyError` raised by any
side other than 100 or 200. -/
def Totals.forTeam? (t : Totals) (team_id : Nat) : Option TeamTotals :=
  if team_id = 100 then some t.t100
  else if team_id = 200 then some t.t200
  else none

/-- Write back the entry for a side (only reached for sides 100/200). -/
def Totals.setTeam (t : Totals) (team_id : Nat) (tt : TeamTotals) : Totals :=
  if team_id = 100 then { t with t100 := tt }
  else if team_id = 200 then { t with t200 := tt }
  else t

/-- `team_totals[team_id]["turret_plates"] += 1`. -/
def Totals.bumpPlates (t : Totals) (team_id : Nat) : Totals :=
  if team_id = 100 then { t with t100.turret_plates := t.t100.turret_plates + 1 }
  else if team_id = 200 then { t with t200.turret_plates := t.t200.turret_plates + 1 }
  else t

/-- The mutable state of the timeline scan: the totals dict together with
the `first_blood_found` / `first_blood_victim` variables. -/
structure ScanState where
  totals : Totals
  first_blood_found : Bool
  first_blood_victim : Option Nat
deriving DecidableEq

def ScanState.init : ScanState := ⟨Totals.init, false, none⟩

/-- The `TURRET_PLATE_DESTROYED` branch of the event loop: an event tagged
side 200 credits side 100 and vice versa; any other tag is skipped. -/
def plateStep (t : Totals) (e : Event) : Totals :=
  if e.type = "TURRET_PLATE_DESTROYED" then
    if e.teamId = 200 then t.bumpPlates 100
    else if e.teamId = 100 then t.bumpPlates 200
    else t
  else t

/-- The `CHAMPION_KILL` branch of the event loop: the first kill event with
a non-zero `killerId` fixes the first-blood victim; later kill events are
skipped. -/
def killStep (s : ScanState) (e : Event) : ScanState :=
  if e.type = "CHAMPION_KILL" then
    if s.first_blood_found then s
    else if e.killerId = 0 then s
    else { s with first_blood_found := true, first_blood_victim := some e.victimId }
  else s

/-- One iteration of the inner event loop (both branches, in source order). -/
def processEvent (s : ScanState) (e : Event) : ScanState :=
  killStep { s with totals := plateStep s.totals e } e

/-- The outer frame loop, with its early `break` once a frame's timestamp
exceeds 850000 ms. -/
def scanFrames : ScanState → List Frame → ScanState
  | s, [] => s
  | s, frame :: rest =>
    if frame.timestamp > 850000 then s
    else scanFrames (frame.events.foldl processEvent s) rest

/-- Python `str.isupper()`: at least one cased character, and every cased
character upper-case. -/
def pyIsUpper (s : List Char) : Bool :=
  s.any (fun c => c.isUpper || c.isLower) && s.all (fun c => !c.isLower)

/-- Python `s.find(" ")`: the index of the first space, `none` for `-1`. -/
def pyFindSpace : List Char → Option Nat
  | [] => none
  | c :: rest => if c = ' ' then some 0 else (pyFindSpace rest).map (· + 1)

/-- `split_team_tag_and_player_nickname` from `lol_basic_parser.py`,
on the character list of the summoner name.  `summoner_name.find(" ")`
is the index of the first space, `summoner_name.split(" ")[0]` the prefix
before it (the characters before the first space), and
`summoner_name[i+1:]` the suffix after it. -/
def split_team_tag_and_player_nickname (summoner_name : List Char) :
    Option (List Char) × List Char :=
  match pyFindSpace summoner_name with
  | some i =>
    if i < 5 then
      let start_of_summoner_name := summoner_name.takeWhile (fun c => c ≠ ' ')
      if pyIsUpper start_of_summoner_name then
        (some start_of_summoner_name, summoner_name.drop (i + 1))
      else (none, summoner_name)
    else (none, summoner_name)
  | none => (none, summoner_name)

/-- The name-splitting rule as the specification words it: a tag is split
off iff the string has a space at an index below five and the text before
that first space is entirely upper-case (in Python's `isupper` sense); the
tag is then the text before the first space and the name the text after
it, otherwise no tag is found and the name is the whole string. -/
def splitModel (s : List Char) : Option (List Char) × List Char :=
  match pyFindSpace s with
  | some i =>
    if i < 5 && pyIsUpper (s.take i) then (some (s.take i), s.drop (i + 1))
    else (none, s)
  | none => (none, s)

/-- One entry of `stats_file["participants"]` (the fields `game_factory`
reads). -/
structure Player where
  participantId : Nat
  teamId : Nat
  riotIdGameName : List Char
  teamPosition : String
  championName : String
  win : Bool
  kills : Nat
  deaths : Nat
  assists : Nat
  goldEarned : Nat
  totalMinionsKilled : Nat
  neutralMinionsKilled : Nat
  totalDamageDealtToChampions : Nat
  wardsPlaced : Nat
  wardsKilled : Nat
  visionWardsBoughtInGame : Nat
  firstBloodKill : Bool
  firstBloodAssist : Bool
deriving DecidableEq

/-- One `objectives` sub-object of a raw team. -/
structure Objective where
  first : Bool
  kills : Nat
deriving DecidableEq

structure Objectives where
  champion : Objective
  tower : Objective
  dragon : Objective
  riftHerald : Objective
  baron : Objective
  inhibitor : Objective
deriving DecidableEq

/-- One entry of `stats_file["teams"]`. -/
structure Team where
  teamId : Nat
  win : Bool
  objectives : Objectives
  bans : List Nat
deriving DecidableEq

/-- The parts of the raw stats file that `game_factory` reads. -/
structure Stats where
  gameDuration : Nat
  participants : List Player
  teams : List Team
deriving DecidableEq

/-- The pre-resolved series metadata fields used by the rows. -/
structure SeriesInfo where
  tournament_id : String
  tournament_name : String
deriving DecidableEq

/-- Python `int(bool)`. -/
def pyInt (b : Bool) : Nat := if b then 1 else 0

/-- One iteration of the totals loop (`team_totals[side][...] += ...`). -/
def addPlayerTotals (t : Totals) (p : Player) : Option Totals :=
  match t.forTeam? p.teamId with
  | none => none
  | some tt => some (t.setTeam p.teamId
    { tt with
      kills := tt.kills + p.kills
      deaths := tt.deaths + p.deaths
      gold_earned := tt.gold_earned + p.goldEarned
      creep_score := tt.creep_score + (p.totalMinionsKilled + p.neutralMinionsKilled)
      damage_to_champions := tt.damage_to_champions + p.totalDamageDealtToChampions
      wards_placed := tt.wards_placed + p.wardsPlaced
      wards_killed := tt.wards_killed + p.wardsKilled
      control_wards_purchased := tt.control_wards_purchased + p.visionWardsBoughtInGame })

/-- The totals loop over all participants. -/
def buildTotals : Totals → List Player → Option Totals
  | t, [] => some t
  | t, p :: rest =>
    match addPlayerTotals t p with
    | none => none
    | some t1 => buildTotals t1 rest

/-- A cleaned per-player row (`player_dto`). -/
structure PlayerRow where
  platform_game_id : String
  tournament_id : String
  tournament_name : String
  summoner_name : List Char
  team_tag : Option (List Char)
  side : Nat
  auto_detect_role : String
  champion : String
  win : Nat
  game_duration : Nat
  kills : Nat
  deaths : Nat
  assists : Nat
  kda : ℚ
  kill_participation : ℚ
  team_kills : Nat
  team_deaths : Nat
  firstBloodKill : Nat
  firstBloodAssist : Nat
  firstBloodVictim : Nat
  damagePerMinute : ℚ
  damageShare : ℚ
  wardsPlacedPerMinute : ℚ
  wardsClearedPerMinute : ℚ
  controlWardsPurchased : Nat
  creepScore : Nat
  creepScorePerMinute : ℚ
  goldEarned : Nat
  goldEarnedPerMinute : ℚ
deriving DecidableEq

/-- Build one `player_dto`.  `none` models the unguarded `ZeroDivisionError`
sites: `kill_participation` divides by the side's total kills,
`damageShare` by the side's total damage, and every per-minute rate by
`gameDuration/60`.  The `kda` denominator replaces a zero death count by
one and therefore never raises. -/
def mkPlayerRow (game_id : String) (series_info : SeriesInfo) (stats : Stats)
    (team_totals : Totals) (first_blood_victim : Option Nat) (p : Player) :
    Option PlayerRow :=
  match team_totals.forTeam? p.teamId with
  | none => none
  | some tt =>
  if tt.kills = 0 then none
  else if stats.gameDuration = 0 then none
  else if tt.damage_to_champions = 0 then none
  else
    let tag_and_name := split_team_tag_and_player_nickname p.riotIdGameName
    let minutes : ℚ := (stats.gameDuration : ℚ) / 60
    some {
      platform_game_id := game_id
      tournament_id := series_info.tournament_id
      tournament_name := series_info.tournament_name
      summoner_name := tag_and_name.2
      team_tag := tag_and_name.1
      side := p.teamId
      auto_detect_role := p.teamPosition
      champion := p.championName
      win := pyInt p.win
      game_duration := stats.gameDuration
      kills := p.kills
      deaths := p.deaths
      assists := p.assists
      kda := ((p.kills : ℚ) + (p.assists : ℚ)) /
        (if p.deaths > 0 then (p.deaths : ℚ) else 1)
      kill_participation := ((p.kills : ℚ) + (p.assists : ℚ)) / (tt.kills : ℚ)
      team_kills := tt.kills
      team_deaths := tt.deaths
      firstBloodKill := pyInt p.firstBloodKill
      firstBloodAssist := pyInt p.firstBloodAssist
      firstBloodVictim := if first_blood_victim = some p.participantId then 1 else 0
      damagePerMinute := (p.totalDamageDealtToChampions : ℚ) / minutes
      damageShare := (p.totalDamageDealtToChampions : ℚ) / (tt.damage_to_champions : ℚ)
      wardsPlacedPerMinute := (p.wardsPlaced : ℚ) / minutes
      wardsClearedPerMinute := (p.wardsKilled : ℚ) / minutes
      controlWardsPurchased := p.visionWardsBoughtInGame
      creepScore := p.totalMinionsKilled + p.neutralMinionsKilled
      creepScorePerMinute := ((p.totalMinionsKilled : ℚ) + (p.neutralMinionsKilled : ℚ)) / minutes
      goldEarned := p.goldEarned
      goldEarnedPerMinute := (p.goldEarned : ℚ) / minutes }

/-- A cleaned per-team row (`team_dto`). -/
structure TeamRow where
  platform_game_id : String
  tournament_id : String
  tournament_name : String
  team_tag : Option (List Char)
  side : Nat
  win : Nat
  gameDuration : Nat
  teamKills : Nat
  teamDeaths : Nat
  firstBloodKill : Nat
  wardsPlacedPerMinute : ℚ
  wardsClearedPerMinute : ℚ
  controlWardsPurchased : Nat
  creepScorePerMinute : ℚ
  goldEarnedPerMinute : ℚ
  firstTurret : Nat
  turretKills : Nat
  turretPlates : Nat
  firstDragon : Nat
  dragonKills : Nat
  firstHerald : Nat
  riftHeraldKills : Nat
  baronKills : Nat
  inhibitorKills : Nat
  bans : List Nat
deriving DecidableEq

/-- An element of `cleaned_game_data`: a player row or a team row. -/
inductive Row
  | player (r : PlayerRow)
  | team (r : TeamRow)
deriving DecidableEq

def Row.side : Row → Nat
  | .player r => r.side
  | .team r => r.side

def Row.team_tag : Row → Option (List Char)
  | .player r => r.team_tag
  | .team r => r.team_tag

/-- Python truthiness of a `team_tag` value (`None` and the empty string
are falsy). -/
def truthyTag : Option (List Char) → Bool
  | none => false
  | some t => !t.isEmpty

/-- Build one `team_dto`.  The team tag is taken from the first row already
in `cleaned_game_data` with the same side and a truthy tag; `teamKills`
comes from the raw team's objectives, while `teamDeaths` comes from the
summed totals. -/
def mkTeamRow (game_id : String) (series_info : SeriesInfo) (stats : Stats)
    (team_totals : Totals) (cleaned_game_data : List Row) (team : Team) :
    Option TeamRow :=
  match team_totals.forTeam? team.teamId with
  | none => none
  | some tt =>
  if stats.gameDuration = 0 then none
  else
    let team_tag :=
      match cleaned_game_data.find? (fun r => r.side == team.teamId && truthyTag r.team_tag) with
      | some r => r.team_tag
      | none => none
    let minutes : ℚ := (stats.gameDuration : ℚ) / 60
    some {
      platform_game_id := game_id
      tournament_id := series_info.tournament_id
      tournament_name := series_info.tournament_name
      team_tag := team_tag
      side := team.teamId
      win := pyInt team.win
      gameDuration := stats.gameDuration
      teamKills := team.objectives.champion.kills
      teamDeaths := tt.deaths
      firstBloodKill := pyInt team.objectives.champion.first
      wardsPlacedPerMinute := (tt.wards_placed : ℚ) / minutes
      wardsClearedPerMinute := (tt.wards_killed : ℚ) / minutes
      controlWardsPurchased := tt.control_wards_purchased
      creepScorePerMinute := (tt.creep_score : ℚ) / minutes
      goldEarnedPerMinute := (tt.gold_earned : ℚ) / minutes
      firstTurret := pyInt team.objectives.tower.first
      turretKills := team.objectives.tower.kills
      turretPlates := tt.turret_plates
      firstDragon := pyInt team.objectives.dragon.first
      dragonKills := team.objectives.dragon.kills
      firstHerald := pyInt team.objectives.riftHerald.first
      riftHeraldKills := team.objectives.riftHerald.kills
      baronKills := team.objectives.baron.kills
      inhibitorKills := team.objectives.inhibitor.kills
      bans := team.bans }

/-- The player loop of `game_factory`: one row per participant, in order. -/
def buildPlayerRows (game_id : String) (series_info : SeriesInfo) (stats : Stats)
    (team_totals : Totals) (first_blood_victim : Option Nat) :
    List Player → Option (List PlayerRow)
  | [] => some []
  | p :: rest =>
    match mkPlayerRow game_id series_info stats team_totals first_blood_victim p with
    | none => none
    | some r =>
      match buildPlayerRows game_id series_info stats team_totals first_blood_victim rest with
      | none => none
      | some rs => some (r :: rs)

/-- The team loop of `game_factory`: appends one team row per raw team to
the accumulated `cleaned_game_data`. -/
def addTeamRows (game_id : String) (series_info : SeriesInfo) (stats : Stats)
    (team_totals : Totals) : List Row → List Team → Option (List Row)
  | cleaned, [] => some cleaned
  | cleaned, team :: rest =>
    match mkTeamRow game_id series_info stats team_totals cleaned team with
    | none => none
    | some tr =>
      addTeamRows game_id series_info stats team_totals (cleaned ++ [Row.team tr]) rest

/-- `game_factory` of `lol_basic_parser.py`: timeline scan, totals loop,
player rows, team rows.  (The unused `live_data` argument is omitted.) -/
def game_factory (game_id : String) (series_info : SeriesInfo) (stats : Stats)
    (timeline : List Frame) : Option (List Row) :=
  let scan := scanFrames ScanState.init timeline
  match buildTotals scan.totals stats.participants with
  | none => none
  | some team_totals =>
    match buildPlayerRows game_id series_info stats team_totals
        scan.first_blood_victim stats.participants with
    | none => none
    | some prows =>
      addTeamRows game_id series_info stats team_totals (prows.map Row.player) stats.teams

/-- Specification-side view of the scan: the events of the frames up to the
850000 ms cutoff, in frame and event order. -/
def scannedEvents (timeline : List Frame) : List Event :=
  (timeline.takeWhile (fun f => !(f.timestamp > 850000 : Bool))).flatMap (·.events)

/-- A kill event that qualifies for first blood. -/
def isFirstBloodEvent (e : Event) : Bool :=
  e.type == "CHAMPION_KILL" && e.killerId != 0

/-- A plate destruction event tagged with the given side. -/
def isPlateTagged (side : Nat) (e : Event) : Bool :=
  e.type == "TURRET_PLATE_DESTROYED" && e.teamId == side

/-- Specification-side per-side sum of a raw player counter. -/
def sumBy (side : Nat) (f : Player → Nat) (ps : List Player) : Nat :=
  ((ps.filter (fun p => p.teamId == side)).map f).sum

/-- The player rows of a `cleaned_game_data` list, in order. -/
def playerRowsOf (rows : List Row) : List PlayerRow :=
  rows.filterMap (fun r => match r with | .player pr => some pr | .team _ => none)

/-- The team rows of a `cleaned_game_data` list, in order. -/
def teamRowsOf (rows : List Row) : List TeamRow :=
  rows.filterMap (fun r => match r with | .player _ => none | .team tr => some tr)

end Lol

namespace Val

/-- One kill event inside a round's `playerStats` entry. -/
structure Kill where
  timeSinceRoundStartMillis : Nat
  killer : String
  victim : String
deriving DecidableEq

/-- One target entry of a player's per-round `damage` list. -/
structure DamageEntry where
  damage : Nat
  headshots : Nat
  bodyshots : Nat
  legshots : Nat
deriving DecidableEq

/-- One entry of a round's `playerStats` list. -/
structure RoundPlayerStats where
  puuid : String
  damage : List DamageEntry
  kills : List Kill
deriving DecidableEq

/-- One entry of `roundResults`. -/
structure RoundData where
  winningTeam : String
  playerStats : List RoundPlayerStats
deriving DecidableEq

/-- One entry of `player_preaggregated_stats`. -/
structure PStats where
  total_damage : Nat
  headshots : Nat
  bodyshots : Nat
  legshots : Nat
  first_kills : Nat
  first_deaths : Nat
deriving DecidableEq

def PStats.init : PStats := ⟨0, 0, 0, 0, 0, 0⟩

/-- `player_preaggregated_stats` as an association list in insertion order
(Python dict keys are unique: entries are only inserted when absent). -/
abbrev PDict := List (String × PStats)

def dictGet (d : PDict) (k : String) : Option PStats :=
  (d.find? (fun kv => kv.1 == k)).map (·.2)

def dictInsert (d : PDict) (k : String) (v : PStats) : PDict := d ++ [(k, v)]

/-- Update the (unique) entry of a key. -/
def dictUpdate (d : PDict) (k : String) (f : PStats → PStats) : PDict :=
  d.map (fun kv => if kv.1 == k then (kv.1, f kv.2) else kv)

/-- `d[k] ... += 1`, with Python's `KeyError` when `k` is absent. -/
def dictModify (d : PDict) (k : String) (f : PStats → PStats) : Option PDict :=
  if (dictGet d k).isSome then some (dictUpdate d k f) else none

/-- `if not player_preaggregated_stats.get(puuid): ...` — initialise an
absent player (stored entries are non-empty dicts, hence truthy). -/
def initPlayer (d : PDict) (ps : RoundPlayerStats) : PDict :=
  if (dictGet d ps.puuid).isSome then d else dictInsert d ps.puuid PStats.init

/-- The four `+=` lines of the damage loop, for one target entry. -/
def addDamage (st : PStats) (t : DamageEntry) : PStats :=
  { st with
    total_damage := st.total_damage + t.damage
    headshots := st.headshots + t.headshots
    bodyshots := st.bodyshots + t.bodyshots
    legshots := st.legshots + t.legshots }

/-- Per-player part of a round's `playerStats` loop: initialise if absent,
then accumulate the damage entries. -/
def processPlayerStats (d : PDict) (ps : RoundPlayerStats) : PDict :=
  ps.damage.foldl (fun d t => dictUpdate d ps.puuid (fun st => addDamage st t))
    (initPlayer d ps)

/-- All kill events collected from one round, in `playerStats` order
(`round_kill_events`). -/
def roundKills (rd : RoundData) : List Kill :=
  rd.playerStats.flatMap (·.kills)

/-- The initialisation/damage phase of one round. -/
def damagePhase (d : PDict) (rd : RoundData) : PDict :=
  rd.playerStats.foldl processPlayerStats d

/-- Python's stable `sorted(round_kill_events, key=lambda kill:
kill["timeSinceRoundStartMillis"])`, modelled by the stable
`List.insertionSort`. -/
def sortKills (l : List Kill) : List Kill :=
  l.insertionSort (fun a b => a.timeSinceRoundStartMillis ≤ b.timeSinceRoundStartMillis)

/-- The attacker side for a 1-based round number (lines 250-254 of
`val_basic_parser.py`). -/
def attackersForRound (round_number : Nat) : String :=
  if round_number < 25 then
    if round_number < 13 then "Red" else "Blue"
  else
    if round_number % 2 = 1 then "Red" else "Blue"

/-- One side's entry of `team_preaggregated_stats`. -/
structure SideAgg where
  attackWins : Nat
  attackLosses : Nat
  defenseWins : Nat
  defenseLosses : Nat
deriving DecidableEq

def SideAgg.init : SideAgg := ⟨0, 0, 0, 0⟩

/-- `team_preaggregated_stats`, keyed by the sides Blue and Red. -/
structure TeamAgg where
  blue : SideAgg
  red : SideAgg
deriving DecidableEq

def TeamAgg.init : TeamAgg := ⟨SideAgg.init, SideAgg.init⟩

/-- `team_preaggregated_stats[teamId]`, `KeyError` on any other key. -/
def sideAggFor (agg : TeamAgg) (teamId : String) : Option SideAgg :=
  if teamId = "Blue" then some agg.blue
  else if teamId = "Red" then some agg.red
  else none

/-- The per-round attack/defense win-loss bookkeeping. -/
def updateTeamAgg (agg : TeamAgg) (round_number : Nat) (winningTeam : String) :
    TeamAgg :=
  let attackers := attackersForRound round_number
  if attackers = "Blue" then
    if winningTeam = "Blue" then
      { agg with
        blue.attackWins := agg.blue.attackWins + 1
        red.defenseLosses := agg.red.defenseLosses + 1 }
    else
      { agg with
        blue.attackLosses := agg.blue.attackLosses + 1
        red.defenseWins := agg.red.defenseWins + 1 }
  else if attackers = "Red" then
    if winningTeam = "Red" then
      { agg with
        red.attackWins := agg.red.attackWins + 1
        blue.defenseLosses := agg.blue.defenseLosses + 1 }
    else
      { agg with
        red.attackLosses := agg.red.attackLosses + 1
        blue.defenseWins := agg.blue.defenseWins + 1 }
  else agg

/-- One iteration of the `roundResults` loop.  `none` models the
`IndexError` on `sorted_kills[0]` for a round without kill events, and the
`KeyError` when the earliest kill's killer or victim never appeared in a
`playerStats` entry. -/
def processRound (st : TeamAgg × PDict) (round_number : Nat) (rd : RoundData) :
    Option (TeamAgg × PDict) :=
  let agg := updateTeamAgg st.1 round_number rd.winningTeam
  let d := damagePhase st.2 rd
  match sortKills (roundKills rd) with
  | [] => none
  | first :: _ =>
    match dictModify d first.killer (fun s => { s with first_kills := s.first_kills + 1 }) with
    | none => none
    | some d1 =>
      match dictModify d1 first.victim (fun s => { s with first_deaths := s.first_deaths + 1 }) with
      | none => none
      | some d2 => some (agg, d2)

/-- The full pre-aggregation loop: `for idx, round_data in
enumerate(raw_game_data["roundResults"])` with `round_number = idx + 1`. -/
def preaggregate : TeamAgg × PDict → Nat → List RoundData → Option (TeamAgg × PDict)
  | st, _, [] => some st
  | st, idx, rd :: rest =>
    match processRound st (idx + 1) rd with
    | none => none
    | some st1 => preaggregate st1 (idx + 1) rest

/-- One team object from the GRID series end-state file. -/
structure GridTeam where
  id : String
  name : String
  won : Bool
  score : Nat
deriving DecidableEq

structure MapInfo where
  name : String
deriving DecidableEq

/-- One game object from the GRID series end-state file. -/
structure GridGame where
  started : Bool
  finished : Bool
  map : MapInfo
  sequenceNumber : Nat
  teams : List GridTeam
deriving DecidableEq

/-- A filled `team_one`/`team_two` slot of the cleaned game metadata. -/
structure TeamMeta where
  id : String
  name : String
  winner : Bool
  rounds_won : Nat
deriving DecidableEq

/-- The dict built by `game_metadata_factory`; `team_one` and `team_two`
start as empty dicts, modelled as `none`. -/
structure GameMetadata where
  map_name : String
  game_number : Nat
  team_one : Option TeamMeta
  team_two : Option TeamMeta
deriving DecidableEq

/-- The `enumerate` loop of `game_metadata_factory`: index 0 fills
`team_one`, index 1 fills `team_two`, any later index raises `IndexError`
("Encountered more than two teams"). -/
def assignTeams : GameMetadata → Nat → List GridTeam → Option GameMetadata
  | md, _, [] => some md
  | md, idx, team :: rest =>
    if idx = 0 then
      assignTeams { md with team_one := some ⟨team.id, team.name, team.won, team.score⟩ }
        (idx + 1) rest
    else if idx = 1 then
      assignTeams { md with team_two := some ⟨team.id, team.name, team.won, team.score⟩ }
        (idx + 1) rest
    else none

/-- `game_metadata_factory` of `val_basic_parser.py`. -/
def game_metadata_factory (g : GridGame) : Option GameMetadata :=
  if !g.started then none
  else if !g.finished then none
  else assignTeams ⟨g.map.name.capitalize, g.sequenceNumber, none, none⟩ 0 g.teams

/-- A resolved reference to one of the two metadata team slots. -/
inductive TeamRef
  | team_one
  | team_two
deriving DecidableEq

/-- `this_game_metadata[ref]`; `none` models the `KeyError` on an unfilled
slot. -/
def GameMetadata.refTeam (md : GameMetadata) : TeamRef → Option TeamMeta
  | .team_one => md.team_one
  | .team_two => md.team_two

/-- `team_side_refs` as an association list from raw team id to slot.  The
Python dict starts as `{"Blue": None, "Red": None}`; a key still holding
`None` and a missing key both make the player-loop lookup fail (the `None`
is used as a key into the metadata dict, a `KeyError`), so both are
modelled by an absent entry. -/
abbrev SideRefs := List (String × TeamRef)

def setRef (refs : SideRefs) (teamId : String) (r : TeamRef) : SideRefs :=
  if (refs.find? (fun kv => kv.1 == teamId)).isSome then
    refs.map (fun kv => if kv.1 == teamId then (kv.1, r) else kv)
  else refs ++ [(teamId, r)]

def getRef (refs : SideRefs) (teamId : String) : Option TeamRef :=
  (refs.find? (fun kv => kv.1 == teamId)).map (·.2)

/-- One entry of `raw_game_data["teams"]`. -/
structure RawTeam where
  teamId : String
  roundsWon : Nat
deriving DecidableEq

/-- The team-matching loop (lines 219-230): vendor `roundsWon` is compared
against `team_one.rounds_won` first, then `team_two.rounds_won`; a team
matching neither raises `ValueError`. -/
def buildTeamSideRefs (md : GameMetadata) : List RawTeam → SideRefs → Option SideRefs
  | [], refs => some refs
  | team :: rest, refs =>
    match md.team_one with
    | none => none
    | some t1 =>
      if team.roundsWon = t1.rounds_won then
        buildTeamSideRefs md rest (setRef refs team.teamId TeamRef.team_one)
      else
        match md.team_two with
        | none => none
        | some t2 =>
          if team.roundsWon = t2.rounds_won then
            buildTeamSideRefs md rest (setRef refs team.teamId TeamRef.team_two)
          else none

/-- The `stats` sub-object of one raw player. -/
structure RawPlayerStats where
  score : Nat
  roundsPlayed : Nat
  kills : Nat
  deaths : Nat
  assists : Nat
deriving DecidableEq

/-- One entry of `raw_game_data["players"]`. -/
structure RawPlayer where
  puuid : String
  gameName : String
  teamId : String
  characterId : String
  stats : RawPlayerStats
deriving DecidableEq

/-- The fields of `raw_game_data["matchInfo"]` that are read. -/
structure MatchInfo where
  matchId : String
  mapId : String
  gameVersion : String
  gameStartMillis : Nat
deriving DecidableEq

/-- The parts of the raw Riot game data that `game_factory` reads. -/
structure RawGameData where
  matchInfo : MatchInfo
  teams : List RawTeam
  roundResults : List RoundData
  players : List RawPlayer
deriving DecidableEq

/-- The pre-cleaned series metadata handed to `game_factory`. -/
structure SeriesMetadata where
  series_id : String
  tournament_id : String
  tournament_name : String
  games : List GameMetadata
deriving DecidableEq

/-- A cleaned per-player row (`player_row`).  `game_start` carries the raw
start milliseconds (the `datetime` conversion is display-only) and
`game_version` the raw version string (its dash-slicing and `float()`
cleanup is display-only); the `round(x, k)` display rounding of the three
rate fields is likewise not modelled. -/
structure PlayerRow where
  game_id : String
  series_id : String
  tournament_id : String
  tournament_name : String
  map_id : String
  map_name : String
  game_start : Nat
  game_version : String
  game_number : Nat
  player_name : String
  team_id : String
  team_name : String
  agent_id : String
  agent_name : String
  win : Nat
  roundsWon : Nat
  roundsLost : Int
  attackRoundsWon : Nat
  attackRoundsLost : Nat
  defenseRoundsWon : Nat
  defenseRoundsLost : Nat
  kills : Nat
  deaths : Nat
  assists : Nat
  averageCombatScore : ℚ
  damagePerRound : ℚ
  first_kills : Nat
  first_deaths : Nat
  headshot_rate : ℚ
deriving DecidableEq

/-- A cleaned per-team row (`team_row`); the per-player columns hold empty
strings in the CSV and are omitted here. -/
structure TeamRow where
  game_id : String
  series_id : String
  tournament_id : String
  tournament_name : String
  map_id : String
  map_name : String
  game_start : Nat
  game_version : String
  game_number : Nat
  team_id : String
  team_name : String
  win : Nat
  roundsWon : Nat
  roundsLost : Int
  attackRoundsWon : Nat
  attackRoundsLost : Nat
  defenseRoundsWon : Nat
  defenseRoundsLost : Nat
deriving DecidableEq

/-- An element of `cleaned_game_data`. -/
inductive Row
  | player (r : PlayerRow)
  | team (r : TeamRow)
deriving DecidableEq

/-- The `player_name` key of a row (team rows hold the empty string). -/
def Row.player_name : Row → String
  | .player r => r.player_name
  | .team _ => ""

def Row.team_name : Row → String
  | .player r => r.team_name
  | .team r => r.team_name

/-- The final sort key: the Python tuple
`(row["player_name"] == "", row["player_name"], row["team_name"])`,
compared lexicographically with `False < True`. -/
def rowKeyLe (a b : Row) : Prop :=
  ((!(a.player_name == "") && (b.player_name == "")) = true) ∨
    ((a.player_name == "") = (b.player_name == "") ∧
      (a.player_name < b.player_name ∨
        (a.player_name = b.player_name ∧ a.team_name ≤ b.team_name)))

instance : DecidableRel rowKeyLe := fun a b => by
  unfold rowKeyLe
  exact inferInstance

/-- The `team_rows_added_map` dict. -/
structure RowFlags where
  blue_team_row_added : Bool
  red_team_row_added : Bool
deriving DecidableEq

/-- `team_rows_added_map[f"{teamId}_team_row_added"]`; `KeyError` on a team
id other than Blue or Red. -/
def flagFor (flags : RowFlags) (teamId : String) : Option Bool :=
  if teamId = "Blue" then some flags.blue_team_row_added
  else if teamId = "Red" then some flags.red_team_row_added
  else none

def setFlag (flags : RowFlags) (teamId : String) : RowFlags :=
  if teamId = "Blue" then { flags with blue_team_row_added := true }
  else if teamId = "Red" then { flags with red_team_row_added := true }
  else flags

/-- The resolved inputs shared by every row of one game. -/
structure RowCtx where
  raw : RawGameData
  series_metadata : SeriesMetadata
  map_name : String
  this_game_metadata : GameMetadata
  refs : SideRefs
  team_agg : TeamAgg
  pdict : PDict
  agents : String → Option String

/-- Build one `player_row`.  `none` models the `KeyError`s of the
`team_side_refs` / metadata / agent / pre-aggregation lookups and the
`ZeroDivisionError`s of `averageCombatScore`, `damagePerRound` (zero
rounds played) and `headshot_rate` (no recorded shots). -/
def mkValPlayerRow (ctx : RowCtx) (p : RawPlayer) : Option PlayerRow :=
  match getRef ctx.refs p.teamId with
  | none => none
  | some ref =>
  match ctx.this_game_metadata.refTeam ref with
  | none => none
  | some tm =>
  match ctx.agents p.characterId with
  | none => none
  | some agent =>
  match sideAggFor ctx.team_agg p.teamId with
  | none => none
  | some sa =>
  match dictGet ctx.pdict p.puuid with
  | none => none
  | some pre =>
  if p.stats.roundsPlayed = 0 then none
  else if pre.headshots + pre.bodyshots + pre.legshots = 0 then none
  else
    some {
      game_id := ctx.raw.matchInfo.matchId
      series_id := ctx.series_metadata.series_id
      tournament_id := ctx.series_metadata.tournament_id
      tournament_name := ctx.series_metadata.tournament_name
      map_id := ctx.raw.matchInfo.mapId
      map_name := ctx.map_name
      game_start := ctx.raw.matchInfo.gameStartMillis
      game_version := ctx.raw.matchInfo.gameVersion
      game_number := ctx.this_game_metadata.game_number
      player_name := p.gameName
      team_id := tm.id
      team_name := tm.name
      agent_id := p.characterId
      agent_name := agent
      win := if tm.winner then 1 else 0
      roundsWon := tm.rounds_won
      roundsLost := (p.stats.roundsPlayed : Int) - (tm.rounds_won : Int)
      attackRoundsWon := sa.attackWins
      attackRoundsLost := sa.attackLosses
      defenseRoundsWon := sa.defenseWins
      defenseRoundsLost := sa.defenseLosses
      kills := p.stats.kills
      deaths := p.stats.deaths
      assists := p.stats.assists
      averageCombatScore := (p.stats.score : ℚ) / (p.stats.roundsPlayed : ℚ)
      damagePerRound := (pre.total_damage : ℚ) / (p.stats.roundsPlayed : ℚ)
      first_kills := pre.first_kills
      first_deaths := pre.first_deaths
      headshot_rate := (pre.headshots : ℚ) /
        ((pre.headshots : ℚ) + (pre.bodyshots : ℚ) + (pre.legshots : ℚ)) }

/-- Build one `team_row` (from the current player's team). -/
def mkValTeamRow (ctx : RowCtx) (p : RawPlayer) : Option TeamRow :=
  match getRef ctx.refs p.teamId with
  | none => none
  | some ref =>
  match ctx.this_game_metadata.refTeam ref with
  | none => none
  | some tm =>
  match sideAggFor ctx.team_agg p.teamId with
  | none => none
  | some sa =>
  some {
    game_id := ctx.raw.matchInfo.matchId
    series_id := ctx.series_metadata.series_id
    tournament_id := ctx.series_metadata.tournament_id
    tournament_name := ctx.series_metadata.tournament_name
    map_id := ctx.raw.matchInfo.mapId
    map_name := ctx.map_name
    game_start := ctx.raw.matchInfo.gameStartMillis
    game_version := ctx.raw.matchInfo.gameVersion
    game_number := ctx.this_game_metadata.game_number
    team_id := tm.id
    team_name := tm.name
    win := if tm.winner then 1 else 0
    roundsWon := tm.rounds_won
    roundsLost := (p.stats.roundsPlayed : Int) - (tm.rounds_won : Int)
    attackRoundsWon := sa.attackWins
    attackRoundsLost := sa.attackLosses
    defenseRoundsWon := sa.defenseWins
    defenseRoundsLost := sa.defenseLosses }

/-- The player loop of `game_factory`: skips Neutral observers, counts the
rest, appends one player row each, and appends a team row the first time a
side is seen. -/
def buildValRows (ctx : RowCtx) :
    List RawPlayer → List Row → Nat → RowFlags → Option (List Row × Nat × RowFlags)
  | [], rows, count, flags => some (rows, count, flags)
  | p :: rest, rows, count, flags =>
    if p.teamId = "Neutral" then buildValRows ctx rest rows count flags
    else
      match mkValPlayerRow ctx p with
      | none => none
      | some pr =>
        match flagFor flags p.teamId with
        | none => none
        | some added =>
          if added then
            buildValRows ctx rest (rows ++ [Row.player pr]) (count + 1) flags
          else
            match mkValTeamRow ctx p with
            | none => none
            | some tr =>
              buildValRows ctx rest (rows ++ [Row.player pr, Row.team tr]) (count + 1)
                (setFlag flags p.teamId)

/-- `game_factory` of `val_basic_parser.py`.  `maps` and `agents` model the
two reference tables fetched from the community metadata API. -/
def game_factory (raw : RawGameData) (series_metadata : SeriesMetadata)
    (maps : String → Option String) (agents : String → Option String) :
    Option (List Row) :=
  match maps raw.matchInfo.mapId with
  | none => none
  | some map_name =>
  match series_metadata.games.find? (fun gm => gm.map_name == map_name) with
  | none => none
  | some this_game_metadata =>
  match buildTeamSideRefs this_game_metadata raw.teams [] with
  | none => none
  | some refs =>
  match preaggregate (TeamAgg.init, []) 0 raw.roundResults with
  | none => none
  | some st =>
  let ctx : RowCtx := ⟨raw, series_metadata, map_name, this_game_metadata, refs, st.1, st.2, agents⟩
  match buildValRows ctx raw.players [] 0 ⟨false, false⟩ with
  | none => none
  | some res =>
  if res.2.1 < 10 then none
  else if res.2.2.blue_team_row_added = false then none
  else if res.2.2.red_team_row_added = false then none
  else some (res.1.insertionSort rowKeyLe)

/-- Specification-side count of non-spectator players. -/
def countNonNeutral (players : List RawPlayer) : Nat :=
  players.countP (fun p => p.teamId != "Neutral")

end Val

/-! ## Concrete fixtures used by witnesses and counterexamples -/

/-- End-state metadata with two resolved teams (13 and 7 round wins). -/
def mdFix : Val.GameMetadata :=
  ⟨"Ascent", 1, some ⟨"10", "Alpha", true, 13⟩, some ⟨"20", "Beta", false, 7⟩⟩

/-- A round whose `playerStats` entries contain no kill events. -/
def rdNoKills : Val.RoundData :=
  ⟨"Blue", [⟨"p1", [⟨100, 1, 2, 0⟩], []⟩]⟩

/-- Series metadata fixture for the LoL flattener. -/
def siFix : Lol.SeriesInfo := ⟨"t100", "Cup"⟩

/-- Side-100 player with zero deaths (exercises the KDA guard). -/
def p1Fix : Lol.Player :=
  ⟨1, 100, "TSM Alpha".toList, "MID", "Ahri", true,
   2, 0, 1, 100, 10, 0, 500, 3, 1, 2, true, false⟩

/-- Side-200 player. -/
def p2Fix : Lol.Player :=
  ⟨2, 200, "Beta".toList, "BOT", "Jinx", false,
   3, 2, 0, 120, 20, 5, 400, 0, 0, 0, false, false⟩

/-- Side-100 raw team whose vendor champion-kill objective (7) differs from
the summed player kills of that side (2). -/
def team100Fix : Lol.Team :=
  ⟨100, true, ⟨⟨true, 7⟩, ⟨true, 2⟩, ⟨false, 1⟩, ⟨false, 0⟩, ⟨false, 0⟩, ⟨false, 1⟩⟩, []⟩

def team200Fix : Lol.Team :=
  ⟨200, false, ⟨⟨false, 3⟩, ⟨false, 1⟩, ⟨true, 1⟩, ⟨true, 1⟩, ⟨false, 0⟩, ⟨false, 0⟩⟩, []⟩

def statsFix : Lol.Stats := ⟨600, [p1Fix, p2Fix], [team100Fix, team200Fix]⟩

/-- Timeline fixture: one early frame (a killer-less execution, a plate
destruction tagged 200, then the first valid kill with victim 1) and one
frame past the 850000 ms cutoff. -/
def tlFix : List Lol.Frame :=
  [⟨1000, [⟨"CHAMPION_KILL", 0, 0, 9⟩, ⟨"TURRET_PLATE_DESTROYED", 200, 0, 0⟩,
    ⟨"CHAMPION_KILL", 0, 2, 1⟩]⟩,
   ⟨900000, [⟨"CHAMPION_KILL", 0, 1, 2⟩]⟩]

/-- The totals the LoL flattener computes on the fixture. -/
def tFix : Lol.Totals :=
  (Lol.buildTotals (Lol.scanFrames Lol.ScanState.init tlFix).totals
    statsFix.participants).getD Lol.Totals.init

def ttFix : Lol.TeamTotals := (tFix.forTeam? 100).getD Lol.TeamTotals.init

/-- The rows the LoL flattener produces on the fixture. -/
def rowsFix : List Lol.Row := (Lol.game_factory "g1" siFix statsFix tlFix).getD []

/-- The first qualifying kill event of the fixture timeline. -/
def eFix : Lol.Event := ⟨"CHAMPION_KILL", 0, 2, 1⟩

/-- Player-builder for the nine-player fixture. -/
def mkP9 (pid team : Nat) : Lol.Player :=
  ⟨pid, team, "P".toList, "MID", "X", false, 1, 1, 0, 10, 1, 0, 10, 0, 0, 0, false, false⟩

/-- A nine-player LoL stats file (five on side 100, four on side 200). -/
def stats9Fix : Lol.Stats :=
  ⟨600, [mkP9 1 100, mkP9 2 100, mkP9 3 100, mkP9 4 100, mkP9 5 100,
         mkP9 6 200, mkP9 7 200, mkP9 8 200, mkP9 9 200],
   [team100Fix, team200Fix]⟩

/-- A GRID end-state game with three teams. -/
def g3Fix : Val.GridGame :=
  ⟨true, true, ⟨"ascent"⟩, 1,
   [⟨"a", "A", true, 13⟩, ⟨"b", "B", false, 7⟩, ⟨"c", "C", false, 0⟩]⟩

/-- A raw Valorant game with no players at all. -/
def rawEmptyFix : Val.RawGameData := ⟨⟨"m1", "map1", "v1", 0⟩, [], [], []⟩

def smFix : Val.SeriesMetadata := ⟨"s1", "t1", "T", []⟩

/-- A round with two kill events, recorded out of time order. -/
def rdKillsFix : Val.RoundData :=
  ⟨"Red", [⟨"a", [⟨20, 1, 1, 0⟩], [⟨5000, "a", "b"⟩]⟩, ⟨"b", [], [⟨3000, "b", "a"⟩]⟩]⟩

/-- The earliest kill of `rdKillsFix`. -/
def firstFix : Val.Kill := ⟨3000, "b", "a"⟩

/-- The pre-aggregation state after processing `rdKillsFix`. -/
def outFix : Val.TeamAgg × Val.PDict :=
  (Val.processRound (Val.TeamAgg.init, []) 1 rdKillsFix).getD (Val.TeamAgg.init, [])

-- FIXTURES-END (concrete inputs for witnesses are inserted above this line)

/-! ## Helper lemmas -/

theorem pyFindSpace_takeWhile (s : List Char) (i : Nat)
    (h : Lol.pyFindSpace s = some i) :
    s.takeWhile (fun c => c ≠ ' ') = s.take i := by
  induction s generalizing i with
  | nil => simp [Lol.pyFindSpace] at h
  | cons c rest ih =>
    by_cases hc : c = ' '
    · simp [Lol.pyFindSpace, hc] at h
      subst h
      simp [List.takeWhile_cons, hc]
    · simp [Lol.pyFindSpace, hc] at h
      obtain ⟨j, hj, hij⟩ := h
      subst hij
      have hrest := ih j hj
      simp [List.takeWhile_cons, hc]
      simpa using hrest

/-! ## C3: attacker side per round (Valorant) -/

/-- C3: the attacking side is a function of the 1-based round number alone:
Red attacks rounds 1-12, Blue attacks rounds 13-24, and from round 25 on
the attacker alternates by parity (Red on odd, Blue on even); round 1 and
round 13 have different attackers, as do rounds 25 and 26. -/
theorem val_attacker_side_by_round_number :
    (∀ n, 1 ≤ n → n ≤ 12 → Val.attackersForRound n = "Red") ∧
    (∀ n, 13 ≤ n → n ≤ 24 → Val.attackersForRound n = "Blue") ∧
    (∀ n, 25 ≤ n → n % 2 = 1 → Val.attackersForRound n = "Red") ∧
    (∀ n, 25 ≤ n → n % 2 = 0 → Val.attackersForRound n = "Blue") ∧
    Val.attackersForRound 1 ≠ Val.attackersForRound 13 ∧
    Val.attackersForRound 25 ≠ Val.attackersForRound 26 := by
  refine ⟨?_, ?_, ?_, ?_, by decide, by decide⟩
  · intro n h1 h2
    unfold Val.attackersForRound
    rw [if_pos (by omega), if_pos (by omega)]
  · intro n h1 h2
    unfold Val.attackersForRound
    rw [if_pos (by omega), if_neg (by omega)]
  · intro n h1 h2
    unfold Val.attackersForRound
    rw [if_neg (by omega), if_pos h2]
  · intro n h1 h2
    unfold Val.attackersForRound
    rw [if_neg (by omega), if_neg (by omega)]

/-- Witness for C3 at concrete round numbers. -/
theorem val_attacker_side_by_round_number_witness :
    Val.attackersForRound 5 = "Red" ∧ Val.attackersForRound 20 = "Blue" ∧
    Val.attackersForRound 27 = "Red" ∧ Val.attackersForRound 28 = "Blue" :=
  ⟨val_attacker_side_by_round_number.1 5 (by decide) (by decide),
   val_attacker_side_by_round_number.2.1 20 (by decide) (by decide),
   val_attacker_side_by_round_number.2.2.1 27 (by decide) (by decide),
   val_attacker_side_by_round_number.2.2.2.1 28 (by decide) (by decide)⟩

/-! ## C4: team-tag / nickname splitting (LoL) -/

/-- C4: the splitting function agrees everywhere with the specification's
rule (split iff the first space sits at an index below five and the prefix
before it is entirely upper-case, tag = text before the first space, name =
text after it, otherwise no tag and the whole string as name), and the
three quoted examples behave as stated. -/
theorem split_team_tag_spec :
    (∀ s, Lol.split_team_tag_and_player_nickname s = Lol.splitModel s) ∧
    Lol.split_team_tag_and_player_nickname "TSM Bjergsen".toList =
      (some "TSM".toList, "Bjergsen".toList) ∧
    Lol.split_team_tag_and_player_nickname "Faker".toList = (none, "Faker".toList) ∧
    Lol.split_team_tag_and_player_nickname "AB CD".toList =
      (some "AB".toList, "CD".toList) := by
  refine ⟨?_, by decide, by decide, by decide⟩
  intro s
  unfold Lol.split_team_tag_and_player_nickname Lol.splitModel
  cases h : Lol.pyFindSpace s with
  | none => rfl
  | some i =>
    rw [pyFindSpace_takeWhile s i h]
    by_cases h5 : i < 5
    · by_cases hup : Lol.pyIsUpper (s.take i) = true
      · simp [h5, hup]
      · simp [h5, hup]
    · simp [h5]

/-! ## C8: team identity resolution (Valorant) -/

/-- C8: each raw team is resolved by comparing its vendor `roundsWon`
against the metadata's `team_one.rounds_won` first and `team_two.rounds_won`
second; a team whose count matches neither makes the whole mapping loop
fail (the game raises and is dropped). -/
theorem val_team_identity_resolution (md : Val.GameMetadata) (t1 t2 : Val.TeamMeta)
    (team : Val.RawTeam)
    (h1 : md.team_one = some t1) (h2 : md.team_two = some t2) :
    (team.roundsWon = t1.rounds_won →
      ∀ refs, Val.buildTeamSideRefs md [team] refs =
        some (Val.setRef refs team.teamId Val.TeamRef.team_one)) ∧
    (team.roundsWon ≠ t1.rounds_won → team.roundsWon = t2.rounds_won →
      ∀ refs, Val.buildTeamSideRefs md [team] refs =
        some (Val.setRef refs team.teamId Val.TeamRef.team_two)) ∧
    (team.roundsWon ≠ t1.rounds_won → team.roundsWon ≠ t2.rounds_won →
      ∀ teams refs, team ∈ teams → Val.buildTeamSideRefs md teams refs = none) := by
  refine ⟨?_, ?_, ?_⟩
  · intro he refs
    unfold Val.buildTeamSideRefs
    rw [h1]
    dsimp only
    rw [if_pos he]
    rfl
  · intro hn he refs
    unfold Val.buildTeamSideRefs
    rw [h1]
    dsimp only
    rw [if_neg hn, h2]
    dsimp only
    rw [if_pos he]
    rfl
  · intro hn1 hn2 teams
    induction teams with
    | nil =>
      intro refs hmem
      exact absurd hmem (List.not_mem_nil team)
    | cons t rest ih =>
      intro refs hmem
      rcases List.mem_cons.mp hmem with rfl | hmem2
      · unfold Val.buildTeamSideRefs
        rw [h1]
        dsimp only
        rw [if_neg hn1, h2]
        dsimp only
        rw [if_neg hn2]
      · unfold Val.buildTeamSideRefs
        rw [h1]
        dsimp only
        by_cases ha : t.roundsWon = t1.rounds_won
        · rw [if_pos ha]
          exact ih _ hmem2
        · rw [if_neg ha, h2]
          dsimp only
          by_cases hb : t.roundsWon = t2.rounds_won
          · rw [if_pos hb]
            exact ih _ hmem2
          · rw [if_neg hb]

/-- Witness for C8: both successful matches and the failing case at a
concrete metadata fixture. -/
theorem val_team_identity_resolution_witness :
    Val.buildTeamSideRefs mdFix [⟨"Blue", 13⟩] [] =
      some (Val.setRef [] "Blue" Val.TeamRef.team_one) ∧
    Val.buildTeamSideRefs mdFix [⟨"Red", 7⟩] [] =
      some (Val.setRef [] "Red" Val.TeamRef.team_two) ∧
    Val.buildTeamSideRefs mdFix [⟨"Red", 5⟩] [] = none :=
  ⟨(val_team_identity_resolution mdFix ⟨"10", "Alpha", true, 13⟩ ⟨"20", "Beta", false, 7⟩
      ⟨"Blue", 13⟩ rfl rfl).1 rfl [],
   (val_team_identity_resolution mdFix ⟨"10", "Alpha", true, 13⟩ ⟨"20", "Beta", false, 7⟩
      ⟨"Red", 7⟩ rfl rfl).2.1 (by decide) rfl [],
   (val_team_identity_resolution mdFix ⟨"10", "Alpha", true, 13⟩ ⟨"20", "Beta", false, 7⟩
      ⟨"Red", 5⟩ rfl rfl).2.2 (by decide) (by decide) [⟨"Red", 5⟩] [] (by decide)⟩

/-! ## C10: a round without kill events makes the flattener fail -/

/-- C10: the pre-aggregation loop indexes the sorted per-round kill list
without an emptiness guard, so any input whose `roundResults` contain a
round with zero kill events makes the whole loop fail. -/
theorem val_round_without_kills_errors (st : Val.TeamAgg × Val.PDict) (idx : Nat)
    (rounds : List Val.RoundData) (rd : Val.RoundData)
    (hmem : rd ∈ rounds) (hempty : Val.roundKills rd = []) :
    Val.preaggregate st idx rounds = none := by
  induction rounds generalizing st idx with
  | nil => exact absurd hmem (List.not_mem_nil rd)
  | cons r rest ih =>
    rcases List.mem_cons.mp hmem with rfl | hmem2
    · have hpr : Val.processRound st (idx + 1) rd = none := by
        unfold Val.processRound
        rw [hempty]
        rfl
      simp [Val.preaggregate, hpr]
    · cases hpr : Val.processRound st (idx + 1) r with
      | none => simp [Val.preaggregate, hpr]
      | some st1 =>
        simp only [Val.preaggregate, hpr, Option.some_bind]
        exact ih st1 (idx + 1) hmem2

/-- Witness for C10: the error branch is reachable at a concrete round
with no kill events. -/
theorem val_round_without_kills_errors_witness :
    Val.preaggregate (Val.TeamAgg.init, []) 0 [rdNoKills] = none :=
  val_round_without_kills_errors (Val.TeamAgg.init, []) 0 [rdNoKills] rdNoKills
    (by decide) (by decide)

/-! ## Scan lemmas (LoL timeline loop) -/

theorem killStep_totals (s : Lol.ScanState) (e : Lol.Event) :
    (Lol.killStep s e).totals = s.totals := by
  unfold Lol.killStep
  repeat' split
  all_goals rfl

theorem processEvent_totals (s : Lol.ScanState) (e : Lol.Event) :
    (Lol.processEvent s e).totals = Lol.plateStep s.totals e := by
  unfold Lol.processEvent
  rw [killStep_totals]

theorem plateStep_t100_plates (t : Lol.Totals) (e : Lol.Event) :
    (Lol.plateStep t e).t100.turret_plates =
      t.t100.turret_plates + (if Lol.isPlateTagged 200 e then 1 else 0) := by
  unfold Lol.plateStep Lol.Totals.bumpPlates Lol.isPlateTagged
  by_cases h1 : e.type = "TURRET_PLATE_DESTROYED"
  · by_cases h2 : e.teamId = 200
    · simp [h1, h2]
    · by_cases h3 : e.teamId = 100
      · simp [h1, h2, h3]
      · simp [h1, h2, h3]
  · simp [h1]

theorem plateStep_t200_plates (t : Lol.Totals) (e : Lol.Event) :
    (Lol.plateStep t e).t200.turret_plates =
      t.t200.turret_plates + (if Lol.isPlateTagged 100 e then 1 else 0) := by
  unfold Lol.plateStep Lol.Totals.bumpPlates Lol.isPlateTagged
  by_cases h1 : e.type = "TURRET_PLATE_DESTROYED"
  · by_cases h2 : e.teamId = 200
    · simp [h1, h2]
    · by_cases h3 : e.teamId = 100
      · simp [h1, h2, h3]
      · simp [h1, h2, h3]
  · simp [h1]

theorem plateStep_fields (t : Lol.Totals) (e : Lol.Event) :
    ((Lol.plateStep t e).t100.kills = t.t100.kills) ∧
    ((Lol.plateStep t e).t100.deaths = t.t100.deaths) ∧
    ((Lol.plateStep t e).t200.kills = t.t200.kills) ∧
    ((Lol.plateStep t e).t200.deaths = t.t200.deaths) := by
  unfold Lol.plateStep Lol.Totals.bumpPlates
  repeat' split
  all_goals simp

theorem foldl_processEvent_totals (evs : List Lol.Event) (s : Lol.ScanState) :
    (evs.foldl Lol.processEvent s).totals = evs.foldl Lol.plateStep s.totals := by
  induction evs generalizing s with
  | nil => rfl
  | cons e rest ih =>
    rw [List.foldl_cons, List.foldl_cons, ih, processEvent_totals]

theorem foldl_plateStep_t100 (evs : List Lol.Event) (t : Lol.Totals) :
    (evs.foldl Lol.plateStep t).t100.turret_plates =
      t.t100.turret_plates + evs.countP (Lol.isPlateTagged 200) := by
  induction evs generalizing t with
  | nil => simp
  | cons e rest ih =>
    rw [List.foldl_cons, ih, List.countP_cons, plateStep_t100_plates]
    cases h : Lol.isPlateTagged 200 e <;> simp [h] <;> omega

theorem foldl_plateStep_t200 (evs : List Lol.Event) (t : Lol.Totals) :
    (evs.foldl Lol.plateStep t).t200.turret_plates =
      t.t200.turret_plates + evs.countP (Lol.isPlateTagged 100) := by
  induction evs generalizing t with
  | nil => simp
  | cons e rest ih =>
    rw [List.foldl_cons, ih, List.countP_cons, plateStep_t200_plates]
    cases h : Lol.isPlateTagged 100 e <;> simp [h] <;> omega

theorem foldl_plateStep_fields (evs : List Lol.Event) (t : Lol.Totals) :
    ((evs.foldl Lol.plateStep t).t100.kills = t.t100.kills) ∧
    ((evs.foldl Lol.plateStep t).t100.deaths = t.t100.deaths) ∧
    ((evs.foldl Lol.plateStep t).t200.kills = t.t200.kills) ∧
    ((evs.foldl Lol.plateStep t).t200.deaths = t.t200.deaths) := by
  induction evs generalizing t with
  | nil => exact ⟨rfl, rfl, rfl, rfl⟩
  | cons e rest ih =>
    rw [List.foldl_cons]
    obtain ⟨a, b, c, d⟩ := ih (Lol.plateStep t e)
    obtain ⟨a2, b2, c2, d2⟩ := plateStep_fields t e
    exact ⟨a.trans a2, b.trans b2, c.trans c2, d.trans d2⟩

theorem scanFrames_eq_foldl (tl : List Lol.Frame) (s : Lol.ScanState) :
    Lol.scanFrames s tl = (Lol.scannedEvents tl).foldl Lol.processEvent s := by
  induction tl generalizing s with
  | nil => rfl
  | cons f rest ih =>
    unfold Lol.scanFrames Lol.scannedEvents
    by_cases h : f.timestamp > 850000
    · rw [if_pos h, List.takeWhile_cons]
      simp [h]
    · rw [if_neg h, ih, List.takeWhile_cons]
      unfold Lol.scannedEvents
      simp [h, List.foldl_append]

/-! ## First-blood lemmas (LoL) -/

theorem processEvent_fb_found (s : Lol.ScanState) (e : Lol.Event)
    (h : s.first_blood_found = true) :
    (Lol.processEvent s e).first_blood_found = true ∧
    (Lol.processEvent s e).first_blood_victim = s.first_blood_victim := by
  unfold Lol.processEvent Lol.killStep
  by_cases h1 : e.type = "CHAMPION_KILL" <;> simp [h1, h]

theorem processEvent_fb_hit (s : Lol.ScanState) (e : Lol.Event)
    (h : s.first_blood_found = false) (he : Lol.isFirstBloodEvent e = true) :
    (Lol.processEvent s e).first_blood_found = true ∧
    (Lol.processEvent s e).first_blood_victim = some e.victimId := by
  unfold Lol.isFirstBloodEvent at he
  simp only [Bool.and_eq_true, beq_iff_eq, bne_iff_ne] at he
  unfold Lol.processEvent Lol.killStep
  simp [he.1, he.2, h]

theorem processEvent_fb_miss (s : Lol.ScanState) (e : Lol.Event)
    (h : s.first_blood_found = false) (he : Lol.isFirstBloodEvent e = false) :
    (Lol.processEvent s e).first_blood_found = false ∧
    (Lol.processEvent s e).first_blood_victim = s.first_blood_victim := by
  unfold Lol.isFirstBloodEvent at he
  unfold Lol.processEvent Lol.killStep
  by_cases h1 : e.type = "CHAMPION_KILL"
  · rw [h1] at he
    simp at he
    simp [h1, h, he]
  · simp [h1, h]

theorem foldl_processEvent_fb_found (evs : List Lol.Event) (s : Lol.ScanState)
    (h : s.first_blood_found = true) :
    (evs.foldl Lol.processEvent s).first_blood_found = true ∧
    (evs.foldl Lol.processEvent s).first_blood_victim = s.first_blood_victim := by
  induction evs generalizing s with
  | nil => exact ⟨h, rfl⟩
  | cons e rest ih =>
    rw [List.foldl_cons]
    obtain ⟨hf, hv⟩ := processEvent_fb_found s e h
    obtain ⟨hf2, hv2⟩ := ih _ hf
    exact ⟨hf2, hv2.trans hv⟩

theorem foldl_processEvent_fb (evs : List Lol.Event) (s : Lol.ScanState)
    (h : s.first_blood_found = false) :
    (evs.foldl Lol.processEvent s).first_blood_victim =
      (match evs.find? Lol.isFirstBloodEvent with
       | some e => some e.victimId
       | none => s.first_blood_victim) := by
  induction evs generalizing s with
  | nil => rfl
  | cons e rest ih =>
    rw [List.foldl_cons]
    cases he : Lol.isFirstBloodEvent e with
    | false =>
      rw [List.find?_cons_of_neg _ (by simp [he])]
      obtain ⟨hf, hv⟩ := processEvent_fb_miss s e h he
      rw [ih _ hf, hv]
    | true =>
      rw [List.find?_cons_of_pos _ (by simp [he])]
      obtain ⟨hf, hv⟩ := processEvent_fb_hit s e h he
      obtain ⟨_, hv2⟩ := foldl_processEvent_fb_found rest _ hf
      rw [hv2, hv]

theorem scan_first_blood_victim (tl : List Lol.Frame) :
    (Lol.scanFrames Lol.ScanState.init tl).first_blood_victim =
      (match (Lol.scannedEvents tl).find? Lol.isFirstBloodEvent with
       | some e => some e.victimId
       | none => none) := by
  rw [scanFrames_eq_foldl]
  exact foldl_processEvent_fb _ _ rfl

theorem scan_totals_kills_deaths (tl : List Lol.Frame) :
    ((Lol.scanFrames Lol.ScanState.init tl).totals.t100.kills = 0) ∧
    ((Lol.scanFrames Lol.ScanState.init tl).totals.t100.deaths = 0) ∧
    ((Lol.scanFrames Lol.ScanState.init tl).totals.t200.kills = 0) ∧
    ((Lol.scanFrames Lol.ScanState.init tl).totals.t200.deaths = 0) := by
  rw [scanFrames_eq_foldl, foldl_processEvent_totals]
  exact foldl_plateStep_fields (Lol.scannedEvents tl) Lol.Totals.init

theorem countP_plate_split (evs : List Lol.Event) :
    evs.countP (fun e => e.type == "TURRET_PLATE_DESTROYED" &&
        (e.teamId == 200 || e.teamId == 100)) =
      evs.countP (Lol.isPlateTagged 200) + evs.countP (Lol.isPlateTagged 100) := by
  induction evs with
  | nil => rfl
  | cons e rest ih =>
    rw [List.countP_cons, List.countP_cons, List.countP_cons, ih]
    unfold Lol.isPlateTagged
    by_cases h1 : e.type = "TURRET_PLATE_DESTROYED" <;>
      by_cases h2 : e.teamId = 200 <;>
        by_cases h3 : e.teamId = 100 <;>
          simp [h1, h2, h3] <;> omega

/-! ## C5: inverted turret-plate credit (LoL) -/

/-- C5: over the scanned frames (those up to the 850000 ms cutoff), side
100's turret-plate counter counts exactly the plate events tagged with
team 200 and vice versa, and plate events with any other tag increment
neither counter (the two counters sum to the count of plate events tagged
100 or 200). -/
theorem lol_turret_plate_inversion (timeline : List Lol.Frame) :
    ((Lol.scanFrames Lol.ScanState.init timeline).totals.t100.turret_plates =
      (Lol.scannedEvents timeline).countP (Lol.isPlateTagged 200)) ∧
    ((Lol.scanFrames Lol.ScanState.init timeline).totals.t200.turret_plates =
      (Lol.scannedEvents timeline).countP (Lol.isPlateTagged 100)) ∧
    ((Lol.scanFrames Lol.ScanState.init timeline).totals.t100.turret_plates +
      (Lol.scanFrames Lol.ScanState.init timeline).totals.t200.turret_plates =
      (Lol.scannedEvents timeline).countP
        (fun e => e.type == "TURRET_PLATE_DESTROYED" &&
          (e.teamId == 200 || e.teamId == 100))) := by
  have h100 : (Lol.scanFrames Lol.ScanState.init timeline).totals.t100.turret_plates =
      (Lol.scannedEvents timeline).countP (Lol.isPlateTagged 200) := by
    rw [scanFrames_eq_foldl, foldl_processEvent_totals, foldl_plateStep_t100]
    simp [Lol.ScanState.init, Lol.Totals.init, Lol.TeamTotals.init]
  have h200 : (Lol.scanFrames Lol.ScanState.init timeline).totals.t200.turret_plates =
      (Lol.scannedEvents timeline).countP (Lol.isPlateTagged 100) := by
    rw [scanFrames_eq_foldl, foldl_processEvent_totals, foldl_plateStep_t200]
    simp [Lol.ScanState.init, Lol.Totals.init, Lol.TeamTotals.init]
  refine ⟨h100, h200, ?_⟩
  rw [h100, h200, countP_plate_split]

/-! ## Totals lemmas (LoL participant loop) -/

theorem sumBy_cons (side : Nat) (f : Lol.Player → Nat) (p : Lol.Player)
    (ps : List Lol.Player) :
    Lol.sumBy side f (p :: ps) =
      (if p.teamId == side then f p else 0) + Lol.sumBy side f ps := by
  unfold Lol.sumBy
  cases h : p.teamId == side <;> simp [List.filter_cons, h]

theorem addPlayerTotals_100 (t : Lol.Totals) (p : Lol.Player) (h1 : p.teamId = 100) :
    Lol.addPlayerTotals t p = some { t with t100 :=
      { kills := t.t100.kills + p.kills
        deaths := t.t100.deaths + p.deaths
        damage_to_champions := t.t100.damage_to_champions + p.totalDamageDealtToChampions
        gold_earned := t.t100.gold_earned + p.goldEarned
        creep_score := t.t100.creep_score + (p.totalMinionsKilled + p.neutralMinionsKilled)
        wards_placed := t.t100.wards_placed + p.wardsPlaced
        wards_killed := t.t100.wards_killed + p.wardsKilled
        control_wards_purchased := t.t100.control_wards_purchased + p.visionWardsBoughtInGame
        turret_plates := t.t100.turret_plates } } := by
  unfold Lol.addPlayerTotals Lol.Totals.forTeam? Lol.Totals.setTeam
  rw [if_pos h1]
  dsimp only
  rw [if_pos h1]

theorem addPlayerTotals_200 (t : Lol.Totals) (p : Lol.Player) (h2 : p.teamId = 200) :
    Lol.addPlayerTotals t p = some { t with t200 :=
      { kills := t.t200.kills + p.kills
        deaths := t.t200.deaths + p.deaths
        damage_to_champions := t.t200.damage_to_champions + p.totalDamageDealtToChampions
        gold_earned := t.t200.gold_earned + p.goldEarned
        creep_score := t.t200.creep_score + (p.totalMinionsKilled + p.neutralMinionsKilled)
        wards_placed := t.t200.wards_placed + p.wardsPlaced
        wards_killed := t.t200.wards_killed + p.wardsKilled
        control_wards_purchased := t.t200.control_wards_purchased + p.visionWardsBoughtInGame
        turret_plates := t.t200.turret_plates } } := by
  have h1 : ¬p.teamId = 100 := by omega
  unfold Lol.addPlayerTotals Lol.Totals.forTeam? Lol.Totals.setTeam
  rw [if_neg h1, if_pos h2]
  dsimp only
  rw [if_neg h1, if_pos h2]

theorem addPlayerTotals_other (t : Lol.Totals) (p : Lol.Player)
    (h1 : ¬p.teamId = 100) (h2 : ¬p.teamId = 200) :
    Lol.addPlayerTotals t p = none := by
  unfold Lol.addPlayerTotals Lol.Totals.forTeam?
  rw [if_neg h1, if_neg h2]

theorem buildTotals_kd (ps : List Lol.Player) (t t1 : Lol.Totals)
    (h : Lol.buildTotals t ps = some t1) :
    (t1.t100.kills = t.t100.kills + Lol.sumBy 100 (fun q => q.kills) ps) ∧
    (t1.t200.kills = t.t200.kills + Lol.sumBy 200 (fun q => q.kills) ps) ∧
    (t1.t100.deaths = t.t100.deaths + Lol.sumBy 100 (fun q => q.deaths) ps) ∧
    (t1.t200.deaths = t.t200.deaths + Lol.sumBy 200 (fun q => q.deaths) ps) := by
  induction ps generalizing t with
  | nil =>
    unfold Lol.buildTotals at h
    injection h with h
    subst h
    simp [Lol.sumBy]
  | cons p rest ih =>
    unfold Lol.buildTotals at h
    by_cases h1 : p.teamId = 100
    · rw [addPlayerTotals_100 t p h1] at h
      dsimp only at h
      obtain ⟨a, b, c, d⟩ := ih _ h
      rw [sumBy_cons, sumBy_cons, sumBy_cons, sumBy_cons]
      simp only [h1] at *
      simp only [a, b, c, d]
      norm_num
      refine ⟨by omega, by omega⟩
    · by_cases h2 : p.teamId = 200
      · rw [addPlayerTotals_200 t p h2] at h
        dsimp only at h
        obtain ⟨a, b, c, d⟩ := ih _ h
        rw [sumBy_cons, sumBy_cons, sumBy_cons, sumBy_cons]
        simp only [h2] at *
        simp only [a, b, c, d]
        norm_num
        refine ⟨by omega, by omega⟩
      · rw [addPlayerTotals_other t p h1 h2] at h
        exact absurd h (by simp)

theorem buildPlayerRows_none (game_id : String) (si : Lol.SeriesInfo) (stats : Lol.Stats)
    (t : Lol.Totals) (fbv : Option Nat) (ps : List Lol.Player) (p : Lol.Player)
    (hp : p ∈ ps)
    (hz : Lol.mkPlayerRow game_id si stats t fbv p = none) :
    Lol.buildPlayerRows game_id si stats t fbv ps = none := by
  induction ps with
  | nil => exact absurd hp (List.not_mem_nil p)
  | cons q rest ih =>
    rcases List.mem_cons.mp hp with rfl | hp2
    · unfold Lol.buildPlayerRows
      rw [hz]
    · unfold Lol.buildPlayerRows
      cases hq : Lol.mkPlayerRow game_id si stats t fbv q with
      | none => rfl
      | some r =>
        rw [ih hp2]

/-! ## C1: kill participation divides by team kills, KDA never by zero -/

/-- C1: a player's `kill_participation` is `(kills + assists) / team total
kills` where the team total is the per-side sum of raw player kills, and a
zero team-kill total makes the whole flattener raise (no row set is
produced); `kda` divides by the death count with zero replaced by one, so
its denominator is never zero. -/
theorem lol_kill_participation_and_kda (game_id : String) (si : Lol.SeriesInfo)
    (stats : Lol.Stats) (timeline : List Lol.Frame) (t : Lol.Totals)
    (ht : Lol.buildTotals (Lol.scanFrames Lol.ScanState.init timeline).totals
        stats.participants = some t)
    (p : Lol.Player) (hp : p ∈ stats.participants) (tt : Lol.TeamTotals)
    (htt : t.forTeam? p.teamId = some tt) :
    (tt.kills = Lol.sumBy p.teamId (fun q => q.kills) stats.participants) ∧
    (tt.kills = 0 → Lol.game_factory game_id si stats timeline = none) ∧
    (∀ r, Lol.mkPlayerRow game_id si stats t
        (Lol.scanFrames Lol.ScanState.init timeline).first_blood_victim p = some r →
      r.kill_participation = ((p.kills : ℚ) + (p.assists : ℚ)) / (tt.kills : ℚ) ∧
      r.kda = ((p.kills : ℚ) + (p.assists : ℚ)) /
        (if p.deaths > 0 then (p.deaths : ℚ) else 1) ∧
      (if p.deaths > 0 then (p.deaths : ℚ) else 1) ≠ 0) := by
  obtain ⟨hk100, hk200, _, _⟩ := buildTotals_kd stats.participants _ t ht
  obtain ⟨hz100, _, hz200, _⟩ := scan_totals_kills_deaths timeline
  have hsum : tt.kills = Lol.sumBy p.teamId (fun q => q.kills) stats.participants := by
    unfold Lol.Totals.forTeam? at htt
    by_cases h1 : p.teamId = 100
    · rw [if_pos h1] at htt
      injection htt with htt
      rw [← htt, h1, hk100, hz100, Nat.zero_add]
    · by_cases h2 : p.teamId = 200
      · rw [if_neg h1, if_pos h2] at htt
        injection htt with htt
        rw [← htt, h2, hk200, hz200, Nat.zero_add]
      · rw [if_neg h1, if_neg h2] at htt
        exact absurd htt (by simp)
  refine ⟨hsum, ?_, ?_⟩
  · intro hk0
    have hnone : Lol.mkPlayerRow game_id si stats t
        (Lol.scanFrames Lol.ScanState.init timeline).first_blood_victim p = none := by
      unfold Lol.mkPlayerRow
      rw [htt]
      dsimp only
      rw [if_pos hk0]
    unfold Lol.game_factory
    dsimp only
    rw [ht]
    dsimp only
    rw [buildPlayerRows_none game_id si stats t _ stats.participants p hp hnone]
  · intro r hr
    unfold Lol.mkPlayerRow at hr
    rw [htt] at hr
    dsimp only at hr
    by_cases g1 : tt.kills = 0
    · rw [if_pos g1] at hr
      exact absurd hr (by simp)
    · rw [if_neg g1] at hr
      by_cases g2 : stats.gameDuration = 0
      · rw [if_pos g2] at hr
        exact absurd hr (by simp)
      · rw [if_neg g2] at hr
        by_cases g3 : tt.damage_to_champions = 0
        · rw [if_pos g3] at hr
          exact absurd hr (by simp)
        · rw [if_neg g3] at hr
          injection hr with hr
          subst hr
          refine ⟨rfl, rfl, ?_⟩
          by_cases hd : p.deaths > 0
          · rw [if_pos hd]
            exact Nat.cast_ne_zero.mpr (by omega)
          · rw [if_neg hd]
            norm_num

/-- Witness for C1 at the two-player fixture (player 1 has two team kills
and zero deaths). -/
theorem lol_kill_participation_and_kda_witness :
    (ttFix.kills = Lol.sumBy p1Fix.teamId (fun q => q.kills) statsFix.participants) ∧
    (ttFix.kills = 0 → Lol.game_factory "g1" siFix statsFix tlFix = none) ∧
    (∀ r, Lol.mkPlayerRow "g1" siFix statsFix tFix
        (Lol.scanFrames Lol.ScanState.init tlFix).first_blood_victim p1Fix = some r →
      r.kill_participation = ((p1Fix.kills : ℚ) + (p1Fix.assists : ℚ)) / (ttFix.kills : ℚ) ∧
      r.kda = ((p1Fix.kills : ℚ) + (p1Fix.assists : ℚ)) /
        (if p1Fix.deaths > 0 then (p1Fix.deaths : ℚ) else 1) ∧
      (if p1Fix.deaths > 0 then (p1Fix.deaths : ℚ) else 1) ≠ 0) :=
  lol_kill_participation_and_kda "g1" siFix statsFix tlFix tFix rfl p1Fix
    (by decide) ttFix rfl

/-! ## Row-list lemmas (LoL) -/

theorem playerRowsOf_players (prows : List Lol.PlayerRow) :
    Lol.playerRowsOf (prows.map Lol.Row.player) = prows := by
  induction prows with
  | nil => rfl
  | cons r rest ih =>
    unfold Lol.playerRowsOf at *
    simp only [List.map_cons, List.filterMap_cons]
    rw [ih]

theorem playerRowsOf_append (a b : List Lol.Row) :
    Lol.playerRowsOf (a ++ b) = Lol.playerRowsOf a ++ Lol.playerRowsOf b := by
  unfold Lol.playerRowsOf
  exact List.filterMap_append a b _

theorem playerRowsOf_teams (trows : List Lol.TeamRow) :
    Lol.playerRowsOf (trows.map Lol.Row.team) = [] := by
  induction trows with
  | nil => rfl
  | cons r rest ih =>
    unfold Lol.playerRowsOf at *
    simp only [List.map_cons, List.filterMap_cons]
    rw [ih]

theorem teamRowsOf_players (prows : List Lol.PlayerRow) :
    Lol.teamRowsOf (prows.map Lol.Row.player) = [] := by
  induction prows with
  | nil => rfl
  | cons r rest ih =>
    unfold Lol.teamRowsOf at *
    simp only [List.map_cons, List.filterMap_cons]
    rw [ih]

theorem teamRowsOf_append (a b : List Lol.Row) :
    Lol.teamRowsOf (a ++ b) = Lol.teamRowsOf a ++ Lol.teamRowsOf b := by
  unfold Lol.teamRowsOf
  exact List.filterMap_append a b _

theorem teamRowsOf_teams (trows : List Lol.TeamRow) :
    Lol.teamRowsOf (trows.map Lol.Row.team) = trows := by
  induction trows with
  | nil => rfl
  | cons r rest ih =>
    unfold Lol.teamRowsOf at *
    simp only [List.map_cons, List.filterMap_cons]
    rw [ih]

/-! ## Projection lemmas for produced rows (LoL) -/

theorem mkPlayerRow_proj (game_id : String) (si : Lol.SeriesInfo) (stats : Lol.Stats)
    (t : Lol.Totals) (fbv : Option Nat) (p : Lol.Player) (r : Lol.PlayerRow)
    (h : Lol.mkPlayerRow game_id si stats t fbv p = some r) :
    ∃ tt, t.forTeam? p.teamId = some tt ∧
      r.firstBloodVictim = (if fbv = some p.participantId then 1 else 0) ∧
      r.team_kills = tt.kills ∧ r.team_deaths = tt.deaths ∧
      r.kills = p.kills ∧ r.deaths = p.deaths := by
  unfold Lol.mkPlayerRow at h
  cases htt : Lol.Totals.forTeam? t p.teamId with
  | none => rw [htt] at h; simp at h
  | some tt =>
    rw [htt] at h
    dsimp only at h
    by_cases g1 : tt.kills = 0
    · rw [if_pos g1] at h; simp at h
    · rw [if_neg g1] at h
      by_cases g2 : stats.gameDuration = 0
      · rw [if_pos g2] at h; simp at h
      · rw [if_neg g2] at h
        by_cases g3 : tt.damage_to_champions = 0
        · rw [if_pos g3] at h; simp at h
        · rw [if_neg g3] at h
          injection h with h
          subst h
          exact ⟨tt, rfl, rfl, rfl, rfl, rfl, rfl⟩

theorem mkTeamRow_proj (game_id : String) (si : Lol.SeriesInfo) (stats : Lol.Stats)
    (t : Lol.Totals) (cleaned : List Lol.Row) (team : Lol.Team) (tr : Lol.TeamRow)
    (h : Lol.mkTeamRow game_id si stats t cleaned team = some tr) :
    ∃ tt, t.forTeam? team.teamId = some tt ∧
      tr.teamDeaths = tt.deaths ∧
      tr.teamKills = team.objectives.champion.kills ∧
      tr.turretPlates = tt.turret_plates := by
  unfold Lol.mkTeamRow at h
  cases htt : Lol.Totals.forTeam? t team.teamId with
  | none => rw [htt] at h; simp at h
  | some tt =>
    rw [htt] at h
    dsimp only at h
    by_cases g2 : stats.gameDuration = 0
    · rw [if_pos g2] at h; simp at h
    · rw [if_neg g2] at h
      injection h with h
      subst h
      exact ⟨tt, rfl, rfl, rfl, rfl⟩

theorem buildPlayerRows_some (game_id : String) (si : Lol.SeriesInfo)
    (stats : Lol.Stats) (t : Lol.Totals) (fbv : Option Nat)
    (ps : List Lol.Player) (rs : List Lol.PlayerRow)
    (h : Lol.buildPlayerRows game_id si stats t fbv ps = some rs) :
    rs.length = ps.length ∧
    ∀ i (h1 : i < ps.length) (h2 : i < rs.length),
      Lol.mkPlayerRow game_id si stats t fbv (ps.get ⟨i, h1⟩) = some (rs.get ⟨i, h2⟩) := by
  induction ps generalizing rs with
  | nil =>
    unfold Lol.buildPlayerRows at h
    injection h with h
    subst h
    exact ⟨rfl, fun i h1 h2 => absurd h1 (by simp)⟩
  | cons p rest ih =>
    unfold Lol.buildPlayerRows at h
    cases hq : Lol.mkPlayerRow game_id si stats t fbv p with
    | none => rw [hq] at h; simp at h
    | some r =>
      rw [hq] at h
      dsimp only at h
      cases hrest : Lol.buildPlayerRows game_id si stats t fbv rest with
      | none => rw [hrest] at h; simp at h
      | some rs2 =>
        rw [hrest] at h
        dsimp only at h
        injection h with h
        subst h
        obtain ⟨hlen, hget⟩ := ih rs2 hrest
        refine ⟨by simp [hlen], ?_⟩
        intro i h1 h2
        cases i with
        | zero => exact hq
        | succ j =>
          exact hget j (by simpa using h1) (by simpa using h2)

theorem addTeamRows_shape (game_id : String) (si : Lol.SeriesInfo) (stats : Lol.Stats)
    (t : Lol.Totals) (teams : List Lol.Team) (acc out : List Lol.Row)
    (h : Lol.addTeamRows game_id si stats t acc teams = some out) :
    ∃ trows : List Lol.TeamRow, out = acc ++ trows.map Lol.Row.team ∧
      trows.length = teams.length ∧
      (∀ j (h1 : j < teams.length) (h2 : j < trows.length),
        ∃ tt, t.forTeam? ((teams.get ⟨j, h1⟩).teamId) = some tt ∧
          (trows.get ⟨j, h2⟩).teamDeaths = tt.deaths ∧
          (trows.get ⟨j, h2⟩).teamKills = (teams.get ⟨j, h1⟩).objectives.champion.kills ∧
          (trows.get ⟨j, h2⟩).turretPlates = tt.turret_plates) := by
  induction teams generalizing acc out with
  | nil =>
    unfold Lol.addTeamRows at h
    injection h with h
    subst h
    exact ⟨[], by simp, rfl, fun j h1 h2 => absurd h1 (by simp)⟩
  | cons team rest ih =>
    unfold Lol.addTeamRows at h
    cases htr : Lol.mkTeamRow game_id si stats t acc team with
    | none => rw [htr] at h; simp at h
    | some tr =>
      rw [htr] at h
      dsimp only at h
      obtain ⟨trows, hout, hlen, hget⟩ := ih (acc ++ [Lol.Row.team tr]) out h
      refine ⟨tr :: trows, ?_, by simp [hlen], ?_⟩
      · rw [hout]
        simp
      · intro j h1 h2
        cases j with
        | zero =>
          obtain ⟨tt, htt, ha, hb, hc⟩ := mkTeamRow_proj game_id si stats t acc team tr htr
          exact ⟨tt, htt, ha, hb, hc⟩
        | succ k =>
          exact hget k (by simpa using h1) (by simpa using h2)

theorem game_factory_parts (game_id : String) (si : Lol.SeriesInfo) (stats : Lol.Stats)
    (timeline : List Lol.Frame) (rows : List Lol.Row)
    (h : Lol.game_factory game_id si stats timeline = some rows) :
    ∃ t prows,
      Lol.buildTotals (Lol.scanFrames Lol.ScanState.init timeline).totals
        stats.participants = some t ∧
      Lol.buildPlayerRows game_id si stats t
        (Lol.scanFrames Lol.ScanState.init timeline).first_blood_victim
        stats.participants = some prows ∧
      Lol.addTeamRows game_id si stats t (prows.map Lol.Row.player) stats.teams =
        some rows := by
  unfold Lol.game_factory at h
  dsimp only at h
  cases h1 : Lol.buildTotals (Lol.scanFrames Lol.ScanState.init timeline).totals
      stats.participants with
  | none => rw [h1] at h; simp at h
  | some t =>
    rw [h1] at h
    dsimp only at h
    cases h2 : Lol.buildPlayerRows game_id si stats t
        (Lol.scanFrames Lol.ScanState.init timeline).first_blood_victim
        stats.participants with
    | none => rw [h2] at h; simp at h
    | some prows =>
      rw [h2] at h
      dsimp only at h
      exact ⟨t, prows, rfl, h2, h⟩

/-! ## Counting helpers -/

theorem countP_eq_of_pointwise {α : Type} {β : Type} (p : α → Bool) (q : β → Bool) :
    ∀ (l1 : List α) (l2 : List β), l1.length = l2.length →
    (∀ i (h1 : i < l1.length) (h2 : i < l2.length),
      p (l1.get ⟨i, h1⟩) = q (l2.get ⟨i, h2⟩)) →
    l1.countP p = l2.countP q
  | [], [], _, _ => rfl
  | [], b :: l2, h, _ => by simp at h
  | a :: l1, [], h, _ => by simp at h
  | a :: l1, b :: l2, hlen, hpt => by
    rw [List.countP_cons, List.countP_cons]
    have h0 : p a = q b := hpt 0 (by simp) (by simp)
    have hrec := countP_eq_of_pointwise p q l1 l2 (by simpa using hlen)
      (fun i h1 h2 => hpt (i + 1) (by simpa using h1) (by simpa using h2))
    rw [h0, hrec]

theorem countP_pid_eq_one (ps : List Lol.Player) (v : Nat)
    (hnodup : (ps.map (fun p => p.participantId)).Nodup)
    (hmem : v ∈ ps.map (fun p => p.participantId)) :
    ps.countP (fun p => p.participantId == v) = 1 := by
  have h1 : ps.countP (fun p => p.participantId == v) =
      (ps.map (fun p => p.participantId)).countP (fun x => x == v) := by
    rw [List.countP_map]
    rfl
  rw [h1]
  have h2 := List.count_eq_one_of_mem hnodup hmem
  simpa [List.count] using h2

/-! ## C2: the firstBloodVictim flag (LoL) -/

/-- C2: when the ordered scan of the frames up to the 850000 ms cutoff
finds a first `CHAMPION_KILL` event with non-zero killer (ties broken by
event order, not by timestamp comparison), that event's victim id is
flagged: among the produced player rows, `firstBloodVictim` is 1 on the
row of the participant whose id equals that victim id and 0 on every other
row, hence on exactly one row when participant ids are distinct and the
victim is among them. -/
theorem lol_first_blood_victim_flag (game_id : String) (si : Lol.SeriesInfo)
    (stats : Lol.Stats) (timeline : List Lol.Frame) (rows : List Lol.Row)
    (e : Lol.Event)
    (hrows : Lol.game_factory game_id si stats timeline = some rows)
    (hfind : (Lol.scannedEvents timeline).find? Lol.isFirstBloodEvent = some e)
    (hmem : e.victimId ∈ stats.participants.map (fun p => p.participantId))
    (hnodup : (stats.participants.map (fun p => p.participantId)).Nodup) :
    ((Lol.playerRowsOf rows).length = stats.participants.length) ∧
    ((Lol.playerRowsOf rows).countP (fun r => r.firstBloodVictim == 1) = 1) ∧
    (∀ i (h1 : i < stats.participants.length)
        (h2 : i < (Lol.playerRowsOf rows).length),
      ((Lol.playerRowsOf rows).get ⟨i, h2⟩).firstBloodVictim =
        (if (stats.participants.get ⟨i, h1⟩).participantId = e.victimId
         then 1 else 0)) := by
  obtain ⟨t, prows, ht, hpr, hat⟩ :=
    game_factory_parts game_id si stats timeline rows hrows
  obtain ⟨trows, hout, _, _⟩ :=
    addTeamRows_shape game_id si stats t stats.teams _ rows hat
  have hprows : Lol.playerRowsOf rows = prows := by
    rw [hout, playerRowsOf_append, playerRowsOf_players, playerRowsOf_teams,
      List.append_nil]
  obtain ⟨hlen, hget⟩ :=
    buildPlayerRows_some game_id si stats t _ stats.participants prows hpr
  have hfbv : (Lol.scanFrames Lol.ScanState.init timeline).first_blood_victim =
      some e.victimId := by
    rw [scan_first_blood_victim, hfind]
  have hpt : ∀ i (h1 : i < stats.participants.length) (h2 : i < prows.length),
      (prows.get ⟨i, h2⟩).firstBloodVictim =
        (if (stats.participants.get ⟨i, h1⟩).participantId = e.victimId
         then 1 else 0) := by
    intro i h1 h2
    obtain ⟨tt, _, hfb, _, _, _, _⟩ := mkPlayerRow_proj game_id si stats t _
      (stats.participants.get ⟨i, h1⟩) (prows.get ⟨i, h2⟩) (hget i h1 h2)
    rw [hfb, hfbv]
    by_cases hv : (stats.participants.get ⟨i, h1⟩).participantId = e.victimId
    · rw [if_pos (by rw [hv]), if_pos hv]
    · rw [if_neg (fun hc => hv ((Option.some.inj hc).symm)), if_neg hv]
  refine ⟨by rw [hprows, hlen], ?_, ?_⟩
  · rw [hprows]
    have hcount : prows.countP (fun r => r.firstBloodVictim == 1) =
        stats.participants.countP (fun p => p.participantId == e.victimId) := by
      apply countP_eq_of_pointwise _ _ prows stats.participants hlen
      intro i h1 h2
      rw [hpt i h2 h1]
      by_cases hv : (stats.participants.get ⟨i, h2⟩).participantId = e.victimId
      · simp [hv]
      · simp [hv]
    rw [hcount]
    exact countP_pid_eq_one stats.participants e.victimId hnodup hmem
  · intro i h1 h2
    have h2b : i < prows.length := by rw [← hprows]; exact h2
    have hgeteq : (Lol.playerRowsOf rows).get ⟨i, h2⟩ = prows.get ⟨i, h2b⟩ :=
      List.get_of_eq hprows ⟨i, h2⟩
    rw [hgeteq]
    exact hpt i h1 h2b

/-- Witness for C2 at the fixture game: victim id 1 is flagged on exactly
one of the two player rows. -/
theorem lol_first_blood_victim_flag_witness :
    ((Lol.playerRowsOf rowsFix).length = statsFix.participants.length) ∧
    ((Lol.playerRowsOf rowsFix).countP (fun r => r.firstBloodVictim == 1) = 1) ∧
    (∀ i (h1 : i < statsFix.participants.length)
        (h2 : i < (Lol.playerRowsOf rowsFix).length),
      ((Lol.playerRowsOf rowsFix).get ⟨i, h2⟩).firstBloodVictim =
        (if (statsFix.participants.get ⟨i, h1⟩).participantId = eFix.victimId
         then 1 else 0)) :=
  lol_first_blood_victim_flag "g1" siFix statsFix tlFix rowsFix eFix rfl
    (by decide) (by decide) (by decide)

/-! ## C6: team aggregates (LoL) -/

theorem forTeam_kills_deaths_sum (stats : Lol.Stats) (timeline : List Lol.Frame)
    (t : Lol.Totals)
    (ht : Lol.buildTotals (Lol.scanFrames Lol.ScanState.init timeline).totals
        stats.participants = some t)
    (side : Nat) (tt : Lol.TeamTotals) (htt : t.forTeam? side = some tt) :
    tt.kills = Lol.sumBy side (fun q => q.kills) stats.participants ∧
    tt.deaths = Lol.sumBy side (fun q => q.deaths) stats.participants := by
  obtain ⟨hk100, hk200, hd100, hd200⟩ := buildTotals_kd stats.participants _ t ht
  obtain ⟨hz1, hz2, hz3, hz4⟩ := scan_totals_kills_deaths timeline
  unfold Lol.Totals.forTeam? at htt
  by_cases h1 : side = 100
  · rw [if_pos h1] at htt
    injection htt with htt
    subst h1
    constructor
    · rw [← htt, hk100, hz1, Nat.zero_add]
    · rw [← htt, hd100, hz2, Nat.zero_add]
  · by_cases h2 : side = 200
    · rw [if_neg h1, if_pos h2] at htt
      injection htt with htt
      subst h2
      constructor
      · rw [← htt, hk200, hz3, Nat.zero_add]
      · rw [← htt, hd200, hz4, Nat.zero_add]
    · rw [if_neg h1, if_neg h2] at htt
      exact absurd htt (by simp)

/-- C6 (amended): whenever the LoL flattener produces rows, the per-player
row fields `kills`/`deaths` are the raw counters, `team_kills` and
`team_deaths` are the per-side sums of the raw player counters, and the
team rows' `teamDeaths` is likewise the per-side sum of player deaths; the
team rows' `teamKills`, however, is copied from the raw team object's
champion-kill objective, not computed as a sum of player counters. -/
theorem lol_team_aggregates (game_id : String) (si : Lol.SeriesInfo)
    (stats : Lol.Stats) (timeline : List Lol.Frame) (rows : List Lol.Row)
    (hrows : Lol.game_factory game_id si stats timeline = some rows) :
    ((Lol.playerRowsOf rows).length = stats.participants.length) ∧
    (∀ i (h1 : i < stats.participants.length)
        (h2 : i < (Lol.playerRowsOf rows).length),
      ((Lol.playerRowsOf rows).get ⟨i, h2⟩).kills =
        (stats.participants.get ⟨i, h1⟩).kills ∧
      ((Lol.playerRowsOf rows).get ⟨i, h2⟩).deaths =
        (stats.participants.get ⟨i, h1⟩).deaths ∧
      ((Lol.playerRowsOf rows).get ⟨i, h2⟩).team_kills =
        Lol.sumBy ((stats.participants.get ⟨i, h1⟩).teamId)
          (fun q => q.kills) stats.participants ∧
      ((Lol.playerRowsOf rows).get ⟨i, h2⟩).team_deaths =
        Lol.sumBy ((stats.participants.get ⟨i, h1⟩).teamId)
          (fun q => q.deaths) stats.participants) ∧
    ((Lol.teamRowsOf rows).length = stats.teams.length) ∧
    (∀ j (h1 : j < stats.teams.length) (h2 : j < (Lol.teamRowsOf rows).length),
      ((Lol.teamRowsOf rows).get ⟨j, h2⟩).teamDeaths =
        Lol.sumBy ((stats.teams.get ⟨j, h1⟩).teamId)
          (fun q => q.deaths) stats.participants ∧
      ((Lol.teamRowsOf rows).get ⟨j, h2⟩).teamKills =
        (stats.teams.get ⟨j, h1⟩).objectives.champion.kills) := by
  obtain ⟨t, prows, ht, hpr, hat⟩ :=
    game_factory_parts game_id si stats timeline rows hrows
  obtain ⟨trows, hout, htlen, htget⟩ :=
    addTeamRows_shape game_id si stats t stats.teams _ rows hat
  have hprows : Lol.playerRowsOf rows = prows := by
    rw [hout, playerRowsOf_append, playerRowsOf_players, playerRowsOf_teams,
      List.append_nil]
  have htrows : Lol.teamRowsOf rows = trows := by
    rw [hout, teamRowsOf_append, teamRowsOf_players, teamRowsOf_teams,
      List.nil_append]
  obtain ⟨hlen, hget⟩ :=
    buildPlayerRows_some game_id si stats t _ stats.participants prows hpr
  refine ⟨by rw [hprows, hlen], ?_, by rw [htrows, htlen], ?_⟩
  · intro i h1 h2
    have h2b : i < prows.length := by rw [← hprows]; exact h2
    have hgeteq : (Lol.playerRowsOf rows).get ⟨i, h2⟩ = prows.get ⟨i, h2b⟩ :=
      List.get_of_eq hprows ⟨i, h2⟩
    rw [hgeteq]
    obtain ⟨tt, htt, _, hk, hd, hpk, hpd⟩ := mkPlayerRow_proj game_id si stats t _
      (stats.participants.get ⟨i, h1⟩) (prows.get ⟨i, h2b⟩) (hget i h1 h2b)
    obtain ⟨hsk, hsd⟩ := forTeam_kills_deaths_sum stats timeline t ht _ tt htt
    exact ⟨hpk, hpd, by rw [hk, hsk], by rw [hd, hsd]⟩
  · intro j h1 h2
    have h2b : j < trows.length := by rw [← htrows]; exact h2
    have hgeteq : (Lol.teamRowsOf rows).get ⟨j, h2⟩ = trows.get ⟨j, h2b⟩ :=
      List.get_of_eq htrows ⟨j, h2⟩
    rw [hgeteq]
    obtain ⟨tt, htt, hdd, hkk, _⟩ := htget j h1 h2b
    obtain ⟨hsk, hsd⟩ := forTeam_kills_deaths_sum stats timeline t ht _ tt htt
    exact ⟨by rw [hdd, hsd], hkk⟩

/-- C6 counterexample: on the fixture game the flattener succeeds, the
side-100 team row carries `teamKills` 7 (the raw objectives value), yet
the side's raw player kills sum to 2 — the claimed consistency of
`teamKills` with the per-player sums is false. -/
theorem lol_team_aggregates_cex :
    (Lol.game_factory "g1" siFix statsFix tlFix).isSome = true ∧
    ((Lol.teamRowsOf rowsFix).map (fun tr => tr.side)).head? = some 100 ∧
    ((Lol.teamRowsOf rowsFix).map (fun tr => tr.teamKills)).head? = some 7 ∧
    Lol.sumBy 100 (fun q => q.kills) statsFix.participants = 2 ∧
    (7 : Nat) ≠ 2 :=
  ⟨rfl, rfl, rfl, by decide, by decide⟩

/-- Witness for the amended C6 at the fixture game. -/
theorem lol_team_aggregates_witness :
    ((Lol.playerRowsOf rowsFix).length = statsFix.participants.length) ∧
    (∀ i (h1 : i < statsFix.participants.length)
        (h2 : i < (Lol.playerRowsOf rowsFix).length),
      ((Lol.playerRowsOf rowsFix).get ⟨i, h2⟩).kills =
        (statsFix.participants.get ⟨i, h1⟩).kills ∧
      ((Lol.playerRowsOf rowsFix).get ⟨i, h2⟩).deaths =
        (statsFix.participants.get ⟨i, h1⟩).deaths ∧
      ((Lol.playerRowsOf rowsFix).get ⟨i, h2⟩).team_kills =
        Lol.sumBy ((statsFix.participants.get ⟨i, h1⟩).teamId)
          (fun q => q.kills) statsFix.participants ∧
      ((Lol.playerRowsOf rowsFix).get ⟨i, h2⟩).team_deaths =
        Lol.sumBy ((statsFix.participants.get ⟨i, h1⟩).teamId)
          (fun q => q.deaths) statsFix.participants) ∧
    ((Lol.teamRowsOf rowsFix).length = statsFix.teams.length) ∧
    (∀ j (h1 : j < statsFix.teams.length)
        (h2 : j < (Lol.teamRowsOf rowsFix).length),
      ((Lol.teamRowsOf rowsFix).get ⟨j, h2⟩).teamDeaths =
        Lol.sumBy ((statsFix.teams.get ⟨j, h1⟩).teamId)
          (fun q => q.deaths) statsFix.participants ∧
      ((Lol.teamRowsOf rowsFix).get ⟨j, h2⟩).teamKills =
        (statsFix.teams.get ⟨j, h1⟩).objectives.champion.kills) :=
  lol_team_aggregates "g1" siFix statsFix tlFix rowsFix rfl

/-! ## C7: team/player-count enforcement -/

theorem assignTeams_three (md : Val.GameMetadata) (teams : List Val.GridTeam)
    (h : teams.length > 2) :
    Val.assignTeams md 0 teams = none := by
  rcases teams with _ | ⟨t1, _ | ⟨t2, _ | ⟨t3, rest⟩⟩⟩
  · simp at h
  · simp at h
  · simp at h
  · unfold Val.assignTeams
    rw [if_pos rfl]
    unfold Val.assignTeams
    rw [if_neg (by omega), if_pos rfl]
    unfold Val.assignTeams
    rw [if_neg (by omega), if_neg (by omega)]

theorem game_metadata_two_teams (g : Val.GridGame) (h : g.teams.length > 2) :
    Val.game_metadata_factory g = none := by
  unfold Val.game_metadata_factory
  by_cases hs : g.started
  · by_cases hf : g.finished
    · rw [if_neg (by simp [hs]), if_neg (by simp [hf])]
      exact assignTeams_three _ _ h
    · rw [if_neg (by simp [hs]), if_pos (by simp [hf])]
  · rw [if_pos (by simp [hs])]

theorem buildValRows_count (ctx : Val.RowCtx) (players : List Val.RawPlayer) :
    ∀ (rows : List Val.Row) (count : Nat) (flags : Val.RowFlags)
      (res : List Val.Row × Nat × Val.RowFlags),
      Val.buildValRows ctx players rows count flags = some res →
      res.2.1 = count + Val.countNonNeutral players := by
  induction players with
  | nil =>
    intro rows count flags res h
    unfold Val.buildValRows at h
    injection h with h
    subst h
    simp [Val.countNonNeutral]
  | cons p rest ih =>
    intro rows count flags res h
    unfold Val.buildValRows at h
    by_cases hn : p.teamId = "Neutral"
    · rw [if_pos hn] at h
      have hres := ih _ _ _ _ h
      rw [hres]
      unfold Val.countNonNeutral
      rw [List.countP_cons]
      simp [hn]
    · rw [if_neg hn] at h
      have hcnt : Val.countNonNeutral (p :: rest) = Val.countNonNeutral rest + 1 := by
        unfold Val.countNonNeutral
        rw [List.countP_cons]
        simp [hn]
      cases h1 : Val.mkValPlayerRow ctx p with
      | none => rw [h1] at h; simp at h
      | some pr =>
        rw [h1] at h
        dsimp only at h
        cases h2 : Val.flagFor flags p.teamId with
        | none => rw [h2] at h; simp at h
        | some added =>
          rw [h2] at h
          dsimp only at h
          cases ha : added with
          | true =>
            rw [ha] at h
            rw [if_pos rfl] at h
            have hres := ih _ _ _ _ h
            rw [hres, hcnt]
            omega
          | false =>
            rw [ha] at h
            rw [if_neg (by simp)] at h
            cases h3 : Val.mkValTeamRow ctx p with
            | none => rw [h3] at h; simp at h
            | some tr =>
              rw [h3] at h
              dsimp only at h
              have hres := ih _ _ _ _ h
              rw [hres, hcnt]
              omega

theorem val_game_factory_needs_ten (raw : Val.RawGameData) (sm : Val.SeriesMetadata)
    (maps agents : String → Option String)
    (h : Val.countNonNeutral raw.players < 10) :
    Val.game_factory raw sm maps agents = none := by
  unfold Val.game_factory
  cases h1 : maps raw.matchInfo.mapId with
  | none => rfl
  | some map_name =>
    dsimp only
    cases h2 : sm.games.find? (fun gm => gm.map_name == map_name) with
    | none => rfl
    | some md =>
      dsimp only
      cases h3 : Val.buildTeamSideRefs md raw.teams [] with
      | none => rfl
      | some refs =>
        dsimp only
        cases h4 : Val.preaggregate (Val.TeamAgg.init, []) 0 raw.roundResults with
        | none => rfl
        | some st =>
          dsimp only
          cases h5 : Val.buildValRows ⟨raw, sm, map_name, md, refs, st.1, st.2, agents⟩
              raw.players [] 0 ⟨false, false⟩ with
          | none => rfl
          | some res =>
            dsimp only
            have hcnt := buildValRows_count _ _ _ _ _ _ h5
            rw [if_pos (by omega)]

/-- C7 (amended): the Valorant pipeline enforces the invariant — its
metadata factory raises on more than two end-state teams, and its game
factory raises when fewer than ten non-Neutral players are found — while
the LoL flattener performs no such validation: a nine-player game is
processed without error and contributes eleven rows. -/
theorem two_teams_ten_players_enforcement :
    (∀ g : Val.GridGame, g.teams.length > 2 → Val.game_metadata_factory g = none) ∧
    (∀ (raw : Val.RawGameData) (sm : Val.SeriesMetadata)
        (maps agents : String → Option String),
      Val.countNonNeutral raw.players < 10 →
      Val.game_factory raw sm maps agents = none) ∧
    ((Lol.game_factory "g9" siFix stats9Fix []).isSome = true ∧
      ((Lol.game_factory "g9" siFix stats9Fix []).getD []).length = 11) :=
  ⟨game_metadata_two_teams, val_game_factory_needs_ten, rfl, rfl⟩

/-- C7 counterexample: the LoL flattener has no player-count or team-count
check: it flattens a nine-player game into nine player rows plus two team
rows and raises no error, so a violating game still contributes rows. -/
theorem lol_nine_players_no_error :
    (Lol.game_factory "g9" siFix stats9Fix []).isSome = true ∧
    ((Lol.game_factory "g9" siFix stats9Fix []).getD []).length = 11 ∧
    (Lol.playerRowsOf ((Lol.game_factory "g9" siFix stats9Fix []).getD [])).length = 9 :=
  ⟨rfl, rfl, rfl⟩

/-- Witness for the amended C7 at concrete inputs: a three-team end-state
game and a player-less raw game both make the Valorant pipeline raise. -/
theorem two_teams_ten_players_enforcement_witness :
    Val.game_metadata_factory g3Fix = none ∧
    Val.game_factory rawEmptyFix smFix (fun _ => none) (fun _ => none) = none :=
  ⟨two_teams_ten_players_enforcement.1 g3Fix (by decide),
   two_teams_ten_players_enforcement.2.1 rawEmptyFix smFix
     (fun _ => none) (fun _ => none) (by decide)⟩

/-! ## Dict lemmas (Valorant pre-aggregation) -/

theorem dictGet_update_self (d : Val.PDict) (k : String) (f : Val.PStats → Val.PStats) :
    Val.dictGet (Val.dictUpdate d k f) k = (Val.dictGet d k).map f := by
  induction d with
  | nil => rfl
  | cons kv rest ih =>
    unfold Val.dictUpdate Val.dictGet
    rw [List.map_cons, List.find?_cons, List.find?_cons]
    by_cases h : (kv.1 == k) = true
    · rw [if_pos h]
      dsimp only
      rw [h]
      rfl
    · rw [if_neg h]
      rw [Bool.not_eq_true] at h
      rw [h]
      dsimp only
      exact ih

theorem dictGet_update_other (d : Val.PDict) (k q : String)
    (f : Val.PStats → Val.PStats) (hne : q ≠ k) :
    Val.dictGet (Val.dictUpdate d k f) q = Val.dictGet d q := by
  induction d with
  | nil => rfl
  | cons kv rest ih =>
    unfold Val.dictUpdate Val.dictGet
    rw [List.map_cons, List.find?_cons, List.find?_cons]
    by_cases h : (kv.1 == k) = true
    · have hk : kv.1 = k := by simpa using h
      have hq : (kv.1 == q) = false := by
        simp only [beq_eq_false_iff_ne, ne_eq, hk]
        exact fun hc => hne hc.symm
      rw [if_pos h]
      dsimp only
      rw [hq]
      dsimp only
      exact ih
    · rw [if_neg h]
      by_cases hq : (kv.1 == q) = true
      · rw [hq]
      · rw [Bool.not_eq_true] at hq
        rw [hq]
        dsimp only
        exact ih

theorem dictGet_map_update (d : Val.PDict) (k q : String)
    (f : Val.PStats → Val.PStats) (g : Val.PStats → Nat)
    (hg : ∀ s, g (f s) = g s) :
    (Val.dictGet (Val.dictUpdate d k f) q).map g = (Val.dictGet d q).map g := by
  by_cases h : q = k
  · subst h
    rw [dictGet_update_self]
    cases Val.dictGet d q <;> simp [hg]
  · rw [dictGet_update_other d k q f h]

theorem dictModify_eq_some (d d1 : Val.PDict) (k : String)
    (f : Val.PStats → Val.PStats)
    (h : Val.dictModify d k f = some d1) :
    (Val.dictGet d k).isSome = true ∧ d1 = Val.dictUpdate d k f := by
  unfold Val.dictModify at h
  by_cases hp : (Val.dictGet d k).isSome
  · rw [if_pos hp] at h
    injection h with h
    exact ⟨hp, h.symm⟩
  · rw [if_neg hp] at h
    simp at h

/-! ## Sortedness of the per-round kill list -/

theorem sortKills_perm (l : List Val.Kill) : List.Perm (Val.sortKills l) l :=
  List.perm_insertionSort _ l

theorem sortKills_sorted (l : List Val.Kill) :
    (Val.sortKills l).Sorted
      (fun a b => a.timeSinceRoundStartMillis ≤ b.timeSinceRoundStartMillis) := by
  have ht : IsTrans Val.Kill
      (fun a b => a.timeSinceRoundStartMillis ≤ b.timeSinceRoundStartMillis) :=
    ⟨fun a b c hab hbc => Nat.le_trans hab hbc⟩
  have hto : IsTotal Val.Kill
      (fun a b => a.timeSinceRoundStartMillis ≤ b.timeSinceRoundStartMillis) :=
    ⟨fun a b => Nat.le_total _ _⟩
  exact List.sorted_insertionSort _ l

/-! ## C9: per-round first-kill / first-death credit (Valorant) -/

/-- C9: processing one round sorts that round's collected kill events by
`timeSinceRoundStartMillis` and, for the earliest entry (an actual element
of the round's kills, minimal in elapsed time), increments the killer's
`first_kills` and the victim's `first_deaths` by exactly one relative to
the dictionary after the damage phase, leaving every other player's
counters unchanged. -/
theorem val_first_kill_first_death (st : Val.TeamAgg × Val.PDict)
    (round_number : Nat) (rd : Val.RoundData) (first : Val.Kill)
    (rest : List Val.Kill) (out : Val.TeamAgg × Val.PDict)
    (hsort : Val.sortKills (Val.roundKills rd) = first :: rest)
    (hout : Val.processRound st round_number rd = some out) :
    (first ∈ Val.roundKills rd) ∧
    (∀ k ∈ Val.roundKills rd,
      first.timeSinceRoundStartMillis ≤ k.timeSinceRoundStartMillis) ∧
    ((Val.dictGet out.2 first.killer).map (fun s => s.first_kills) =
      (Val.dictGet (Val.damagePhase st.2 rd) first.killer).map
        (fun s => s.first_kills + 1)) ∧
    ((Val.dictGet out.2 first.victim).map (fun s => s.first_deaths) =
      (Val.dictGet (Val.damagePhase st.2 rd) first.victim).map
        (fun s => s.first_deaths + 1)) ∧
    (∀ q, q ≠ first.killer →
      (Val.dictGet out.2 q).map (fun s => s.first_kills) =
        (Val.dictGet (Val.damagePhase st.2 rd) q).map (fun s => s.first_kills)) ∧
    (∀ q, q ≠ first.victim →
      (Val.dictGet out.2 q).map (fun s => s.first_deaths) =
        (Val.dictGet (Val.damagePhase st.2 rd) q).map (fun s => s.first_deaths)) := by
  have hmem : first ∈ Val.roundKills rd := by
    have hin : first ∈ Val.sortKills (Val.roundKills rd) := by
      rw [hsort]
      exact List.mem_cons_self _ _
    exact (sortKills_perm _).mem_iff.mp hin
  have hmin : ∀ k ∈ Val.roundKills rd,
      first.timeSinceRoundStartMillis ≤ k.timeSinceRoundStartMillis := by
    intro k hk
    have hk2 : k ∈ Val.sortKills (Val.roundKills rd) :=
      (sortKills_perm _).mem_iff.mpr hk
    rw [hsort] at hk2
    rcases List.mem_cons.mp hk2 with rfl | h2
    · exact Nat.le_refl _
    · have hs := sortKills_sorted (Val.roundKills rd)
      rw [hsort] at hs
      exact List.rel_of_sorted_cons hs k h2
  unfold Val.processRound at hout
  rw [hsort] at hout
  dsimp only at hout
  cases h1 : Val.dictModify (Val.damagePhase st.2 rd) first.killer
      (fun s => { s with first_kills := s.first_kills + 1 }) with
  | none => rw [h1] at hout; simp at hout
  | some d1 =>
    rw [h1] at hout
    dsimp only at hout
    cases h2 : Val.dictModify d1 first.victim
        (fun s => { s with first_deaths := s.first_deaths + 1 }) with
    | none => rw [h2] at hout; simp at hout
    | some d2 =>
      rw [h2] at hout
      dsimp only at hout
      injection hout with hout
      subst hout
      obtain ⟨hp1, hd1⟩ := dictModify_eq_some _ _ _ _ h1
      obtain ⟨hp2, hd2⟩ := dictModify_eq_some _ _ _ _ h2
      subst hd1
      subst hd2
      dsimp only
      refine ⟨hmem, hmin, ?_, ?_, ?_, ?_⟩
      · rw [dictGet_map_update _ first.victim first.killer
          (fun s => { s with first_deaths := s.first_deaths + 1 })
          (fun s => s.first_kills) (fun s => rfl)]
        rw [dictGet_update_self]
        cases Val.dictGet (Val.damagePhase st.2 rd) first.killer <;> simp
      · have hrel := dictGet_map_update (Val.damagePhase st.2 rd) first.killer
          first.victim (fun s => { s with first_kills := s.first_kills + 1 })
          (fun s => s.first_deaths + 1) (fun s => rfl)
        rw [← hrel, dictGet_update_self]
        cases Val.dictGet (Val.dictUpdate (Val.damagePhase st.2 rd) first.killer
          (fun s => { s with first_kills := s.first_kills + 1 })) first.victim <;> simp
      · intro q hq
        rw [dictGet_map_update _ first.victim q
          (fun s => { s with first_deaths := s.first_deaths + 1 })
          (fun s => s.first_kills) (fun s => rfl)]
        rw [dictGet_update_other _ first.killer q _ hq]
      · intro q hq
        rw [dictGet_update_other _ first.victim q _ hq]
        exact dictGet_map_update (Val.damagePhase st.2 rd) first.killer q
          (fun s => { s with first_kills := s.first_kills + 1 })
          (fun s => s.first_deaths) (fun s => rfl)

/-- Witness for C9 at a concrete round whose kills are recorded out of
time order: the 3000 ms kill by player b on player a is credited. -/
theorem val_first_kill_first_death_witness :
    (firstFix ∈ Val.roundKills rdKillsFix) ∧
    (∀ k ∈ Val.roundKills rdKillsFix,
      firstFix.timeSinceRoundStartMillis ≤ k.timeSinceRoundStartMillis) ∧
    ((Val.dictGet outFix.2 firstFix.killer).map (fun s => s.first_kills) =
      (Val.dictGet (Val.damagePhase [] rdKillsFix) firstFix.killer).map
        (fun s => s.first_kills + 1)) ∧
    ((Val.dictGet outFix.2 firstFix.victim).map (fun s => s.first_deaths) =
      (Val.dictGet (Val.damagePhase [] rdKillsFix) firstFix.victim).map
        (fun s => s.first_deaths + 1)) ∧
    (∀ q, q ≠ firstFix.killer →
      (Val.dictGet outFix.2 q).map (fun s => s.first_kills) =
        (Val.dictGet (Val.damagePhase [] rdKillsFix) q).map (fun s => s.first_kills)) ∧
    (∀ q, q ≠ firstFix.victim →
      (Val.dictGet outFix.2 q).map (fun s => s.first_deaths) =
        (Val.dictGet (Val.damagePhase [] rdKillsFix) q).map (fun s => s.first_deaths)) :=
  val_first_kill_first_death (Val.TeamAgg.init, []) 1 rdKillsFix firstFix
    [⟨5000, "a", "b"⟩] outFix (by decide) rfl
